import Mathlib

/-!
Verification of the toolchain abstraction layer of bfg9000 against its
specification.  The definitions below are a shallow embedding of the Python
sources (`bfg9000/tools/cc.py`, `msvc.py`, `jvm.py`, `pkg_config.py`,
`mopack.py`, `conan.py`, `platforms/basepath.py`, `platforms/posix.py`).
Python strings are `List Char`; functions that can raise return `Except`.
-/

set_option linter.unusedVariables false

namespace Bfg

/-- Characters of a Python string. -/
abbrev Str := List Char

/-- The character list of a string literal. -/
def chars (s : String) : Str := s.data

/-- A single-quote character (used when embedding Python error messages that
quote names with `'`). -/
def sq : Char := Char.ofNat 39

/-- Python repr-style single quoting of a string: `'s'`. -/
def quoted (s : Str) : Str := sq :: (s ++ [sq])

/-- The Python exceptions raised by the embedded code. -/
inductive PyErr where
  | typeError (msg : Str)
  | valueError (msg : Str)
  | keyError (key : Str)
  | indexError (msg : Str)
  | osError (msg : Str)
  | calledProcessError (msg : Str)
  | pkgResolutionError (msg : Str)
  | pkgVersionError (msg : Str)
deriving DecidableEq

/-- Path roots: the `Root` enum (`srcdir`, `builddir`, `absolute`) and the
`InstallRoot` enum (`prefix`, `exec_prefix`, `bindir`, `libdir`,
`includedir`) of `platforms/basepath.py`. -/
inductive RootT where
  | srcdir
  | builddir
  | absolute
  | prefixR
  | execPrefixR
  | bindirR
  | libdirR
  | includedirR
deriving DecidableEq

/-- True for members of the plain `Root` enum (as opposed to `InstallRoot`). -/
def RootT.isPlainRoot : RootT → Bool
  | .srcdir => true
  | .builddir => true
  | .absolute => true
  | _ => false

/-- True for members of the `InstallRoot` enum. -/
def RootT.isInstallRoot (r : RootT) : Bool := !r.isPlainRoot

/-- Split a string at every `/` (Python `str.split('/')`): always returns at
least one (possibly empty) group. -/
def splitSlash : Str → List Str
  | [] => [[]]
  | c :: cs =>
    let r := splitSlash cs
    if c = '/' then [] :: r
    else
      match r with
      | g :: gs => (c :: g) :: gs
      | [] => [[c]]

/-- Join components with `/` (Python `'/'.join`). -/
def joinSlash : List Str → Str
  | [] => []
  | [g] => g
  | g :: gs => g ++ '/' :: joinSlash gs

/-- The component-processing loop of `posixpath.normpath`: drops empty and
`.` components and resolves `..` against preceding components. -/
def normLoop (absRoot : Bool) : List Str → List Str → List Str
  | newComps, [] => newComps
  | newComps, comp :: rest =>
    if comp = [] ∨ comp = chars "." then normLoop absRoot newComps rest
    else if comp ≠ chars ".." ∨ (¬ absRoot ∧ newComps = []) ∨
            (newComps ≠ [] ∧ newComps.getLast? = some (chars "..")) then
      normLoop absRoot (newComps ++ [comp]) rest
    else if newComps ≠ [] then normLoop absRoot newComps.dropLast rest
    else normLoop absRoot newComps rest

/-- `posixpath.normpath`. -/
def normpath (p : Str) : Str :=
  if p = [] then chars "."
  else
    let islashes : Nat :=
      if p.take 1 = chars "/" then
        (if p.take 2 = chars "//" ∧ p.take 3 ≠ chars "///" then 2 else 1)
      else 0
    let comps := normLoop (islashes ≠ 0) [] (splitSlash p)
    let joined := List.replicate islashes '/' ++ joinSlash comps
    if joined = [] then chars "." else joined

/-- `posixpath.join` restricted to two arguments. -/
def pjoin (a b : Str) : Str :=
  if b.take 1 = chars "/" then b
  else if a = [] ∨ a.getLast? = some '/' then a ++ b
  else a ++ '/' :: b

/-- True when a POSIX path is absolute. -/
def posixIsAbs (p : Str) : Bool := p.take 1 = chars "/"

/-- True when a Windows-style path is absolute (`ntpath.isabs`): starts with a
slash or backslash. -/
def ntIsAbs (p : Str) : Bool := p.take 1 = chars "/" ∨ p.take 1 = chars "\\"

/-- Replace backslashes by forward slashes (`str.replace('\\', '/')`). -/
def bslashToSlash (c : Char) : Char := if c = '\\' then '/' else c

/-- Drive splitting as done by `ntpath.splitdrive` for letter drives
(`X:...`).  UNC `//host/share` prefixes are not modelled: no path handled by
the claims of this development contains one. -/
def splitDrive (p : Str) : Str × Str :=
  match p with
  | a :: b :: rest => if b = ':' then ([a, b], rest) else ([], p)
  | _ => ([], p)

/-- The tail normalization of `BasePath.__normalize` / `BasePath.__join`:
`normpath` followed by turning `.` into the empty suffix. -/
def pathNormalize (s : Str) : Str :=
  let p := normpath s
  if p = chars "." then [] else p

/-- `BasePath.__join`: join then normalize. -/
def joinNorm (a b : Str) : Str := pathNormalize (pjoin a b)

/-- `posixpath.dirname`: the part before the last slash, with trailing
slashes stripped unless the result is all slashes. -/
def pdirname (s : Str) : Str :=
  let r := s.reverse
  let afterLen := (r.takeWhile (· ≠ '/')).length
  let head := (r.drop afterLen).reverse
  if head ≠ [] ∧ head.any (· ≠ '/') then (head.reverse.dropWhile (· = '/')).reverse
  else head

/-- `posixpath.basename`: the part after the last slash. -/
def pbasename (s : Str) : Str := (s.reverse.takeWhile (· ≠ '/')).reverse

/-- An abstract path (`BasePath` of `platforms/basepath.py`): a normalized
suffix relative to a symbolic root.  Paths with an absolute root store their
suffix with the leading slash. -/
structure BPath where
  suffix : Str
  root : RootT
  destdir : Bool := false
deriving DecidableEq

/-- The `BasePath` constructor.  `os.path.expanduser` is modelled as the
identity: no path handled by the claims of this development starts with
`~`. -/
def mkPathD (path : Str) (root : RootT) (destdir : Bool) : Except PyErr BPath :=
  if destdir ∧ root.isPlainRoot then
    .error (.valueError (chars "destdir only applies to install paths"))
  else
    let pr := splitDrive path
    if pr.1 ≠ [] ∧ ¬ ntIsAbs pr.2 then
      .error (.valueError (chars "relative paths with drives not supported"))
    else
      let drive := pr.1.map bslashToSlash
      let p := pathNormalize (pr.2.map bslashToSlash)
      let rd : (RootT × Bool) ⊕ PyErr :=
        if posixIsAbs p then .inl (.absolute, false)
        else if root = .absolute then
          .inr (.valueError (quoted p ++ chars " is not absolute"))
        else .inl (root, destdir)
      match rd with
      | .inr e => .error e
      | .inl (r, dd) =>
        if p = chars ".." ∨ (chars "../").isPrefixOf p then
          .error (.valueError
            (chars "too many " ++ quoted (chars "..") ++
             chars ": path cannot escape root"))
        else .ok { suffix := drive ++ p, root := r, destdir := dd }

/-- `BasePath(path, root)` with the default `destdir=False`. -/
def mkPath (path : Str) (root : RootT := .builddir) : Except PyErr BPath :=
  mkPathD path root false

/-- `BasePath.parent`. -/
def BPath.parent (p : BPath) : Except PyErr BPath :=
  if p.suffix = [] then .error (.valueError (chars "already at root"))
  else mkPathD (pdirname p.suffix) p.root p.destdir

/-- `BasePath.basename`. -/
def BPath.basename (p : BPath) : Str := pbasename p.suffix

/-- `BasePath.append`. -/
def BPath.append (p : BPath) (s : Str) : Except PyErr BPath :=
  let pr := splitDrive s
  if pr.1 ≠ [] ∧ ¬ ntIsAbs pr.2 then
    .error (.valueError (chars "relative paths with drives not supported"))
  else
    let drive := pr.1.map bslashToSlash
    let s2 := pathNormalize (pr.2.map bslashToSlash)
    let s3 := if posixIsAbs s2 then s2 else joinNorm p.suffix s2
    mkPathD (drive ++ s3) p.root p.destdir

/-- `BasePath.splitleaf`: parent and basename. -/
def BPath.splitleaf (p : BPath) : Except PyErr (BPath × Str) := do
  let par ← p.parent
  .ok (par, p.basename)

/-- `BasePath.cross`: re-interpret the path with the target platform's path
class.  The suffix and root are unchanged, so this is the identity here. -/
def BPath.cross (p : BPath) : BPath := p

/-- Components of a normalized suffix, with empty components removed (the
`[x for x in ... if x]` filtering of `posixpath.relpath`). -/
def pathComps (s : Str) : List Str := (splitSlash s).filter (· ≠ [])

/-- Length of the longest common prefix of two component lists
(`os.path.commonprefix`). -/
def commonPrefixLen : List Str → List Str → Nat
  | a :: as, b :: bs => if a = b then commonPrefixLen as bs + 1 else 0
  | _, _ => 0

/-- `posixpath.relpath` on two relative paths that hang off the same root
(`abspath` resolves both against the same working directory, which cancels
out component-wise). -/
def prelpath (path start : Str) : Str :=
  let pl := pathComps path
  let sl := pathComps start
  let i := commonPrefixLen sl pl
  let rel := List.replicate (sl.length - i) (chars "..") ++ pl.drop i
  if rel = [] then chars "." else joinSlash rel

/-- `BasePath.relpath` (with the POSIX `_localize_path`, which is the
identity): returns a plain string. -/
def BPath.relpath (p : BPath) (start : BPath) (pfx : Str) : Except PyErr Str :=
  if p.root = .absolute then .ok p.suffix
  else if p.root ≠ start.root then .error (.valueError (chars "source mismatch"))
  else if pfx ≠ [] ∧ prelpath p.suffix start.suffix = chars "." then .ok pfx
  else .ok (pjoin pfx (prelpath p.suffix start.suffix))

end Bfg

namespace Bfg

/-- Drop an expected leading segment: `some rest` when `pre` is a prefix. -/
def dropPrefixQ : Str → Str → Option Str
  | [], s => some s
  | _, [] => none
  | a :: as, b :: bs => if a = b then dropPrefixQ as bs else none

/-- Strip an expected trailing segment: `some front` when `suf` is a
suffix. -/
def stripSuffixQ (suf s : Str) : Option Str :=
  (dropPrefixQ suf.reverse s.reverse).map List.reverse

/-- Python's `needle in haystack` substring test. -/
def containsSub (needle : Str) : Str → Bool
  | [] => (dropPrefixQ needle []).isSome
  | c :: cs => (dropPrefixQ needle (c :: cs)).isSome || containsSub needle cs

/-- True when a release-segment list has a nonzero component (used to compare
against implicit zero padding). -/
def verPos : List Nat → Bool
  | [] => false
  | b :: bs => if b = 0 then verPos bs else true

/-- Zero-padded lexicographic comparison of release segments, the order the
external `packaging`/`verspec` library uses on plain release versions. -/
def verLt : List Nat → List Nat → Bool
  | [], b => verPos b
  | a :: as, [] => if a = 0 then verLt as [] else false
  | a :: as, b :: bs => if a < b then true else if b < a then false else verLt as bs

/-- Membership in `SpecifierSet('<2.28')` for a release version. -/
def specLt228 (v : List Nat) : Bool := verLt v [2, 28]

/-- Target platform capability record, with the property values of
`PosixTargetPlatform` / `DarwinTargetPlatform` (`platforms/posix.py`). -/
structure TargetPlatform where
  genus : Str
  family : Str
  objectFormat : Str
  executableExt : Str
  sharedLibraryExt : Str
  hasImportLibrary : Bool
  hasVersionedLibrary : Bool
  hasFrameworks : Bool
deriving DecidableEq

/-- A Linux (generic POSIX/ELF) target platform (`PosixTargetPlatform`). -/
def linuxPlatform : TargetPlatform :=
  { genus := chars "linux", family := chars "posix"
    objectFormat := chars "elf", executableExt := []
    sharedLibraryExt := chars ".so", hasImportLibrary := false
    hasVersionedLibrary := true, hasFrameworks := false }

/-- A macOS target platform (`DarwinTargetPlatform`). -/
def darwinPlatform : TargetPlatform :=
  { genus := chars "darwin", family := chars "posix"
    objectFormat := chars "mach-o", executableExt := []
    sharedLibraryExt := chars ".dylib", hasImportLibrary := false
    hasVersionedLibrary := true, hasFrameworks := true }

/-- Modelled from the spec: a PE/COFF Windows target platform (import
libraries, no versioned shared libraries); `platforms/windows.py` is not
among the analyzed sources, but the spec fixes these capability values
(§3 "Library artifact family", §4.3). -/
def windowsPlatform : TargetPlatform :=
  { genus := chars "winnt", family := chars "windows"
    objectFormat := chars "coff", executableExt := chars ".exe"
    sharedLibraryExt := chars ".dll", hasImportLibrary := true
    hasVersionedLibrary := false, hasFrameworks := false }

/-- A runtime library file together with its (recursive) runtime
dependencies.  Modelled from the spec: `file_types.py` is not among the
analyzed sources; the spec's data model (§3) gives shared libraries a
runtime file and a list of runtime dependencies. -/
inductive RTFile where
  | node (path : BPath) (deps : List RTFile)

/-- The path of a runtime file. -/
def RTFile.path : RTFile → BPath
  | .node p _ => p

/-- The runtime dependencies of a runtime file. -/
def RTFile.deps : RTFile → List RTFile
  | .node _ d => d

mutual
/-- Modelled from the spec: `iterutils.recursive_walk(thing, 'runtime_deps')`
(`iterutils.py` is not among the analyzed sources) yields every runtime
dependency reachable from `thing`, in preorder (§4.3 step 2: "recursively
walked through runtime dependencies"). -/
def recursiveWalk : RTFile → List RTFile
  | .node _ deps => recursiveWalkList deps

/-- Preorder walk of a list of runtime files (each file followed by its own
recursive walk). -/
def recursiveWalkList : List RTFile → List RTFile
  | [] => []
  | d :: ds => d :: (recursiveWalk d ++ recursiveWalkList ds)
end

/-- A library value as passed in `opts.lib` options.  The constructors mirror
the `isinstance` dispatch of `cc.py`: the `file_types.py` class hierarchy is
not among the analyzed sources, so the classes are modelled from the spec's
library artifact family (§3); `WholeArchive` wraps a static archive,
`Framework` and plain strings are not `Library` instances. -/
inductive LinkedLib where
  | sharedLib (path : BPath) (runtimeFile : Option RTFile) (creator : Bool)
  | staticLib (path : BPath)
  | wholeArchive (path : BPath)
  | genericLib (path : BPath) (runtimeFile : Option RTFile)
  | framework (fullName : Str)
  | strName (s : Str)

/-- `isinstance(library, Library)`. -/
def LinkedLib.isLibrary : LinkedLib → Bool
  | .framework _ => false
  | .strName _ => false
  | _ => true

/-- The `runtime_file` attribute: shared (and generic) libraries may carry a
runtime file, static archives do not. -/
def LinkedLib.runtimeFile? : LinkedLib → Option RTFile
  | .sharedLib _ rf _ => rf
  | .genericLib _ rf => rf
  | _ => none

/-- The `path` attribute of a `Library` (frameworks and raw strings have
none). -/
def LinkedLib.path? : LinkedLib → Option BPath
  | .sharedLib p _ _ => some p
  | .staticLib p => some p
  | .wholeArchive p => some p
  | .genericLib p _ => some p
  | _ => none

end Bfg

namespace Bfg

/-- Characters that may appear in the simple file names this development
quantifies over: alphanumerics and `.`, `-`, `_`, `+`.  Such names contain no
path separators, drive colons, backslashes or `~`. -/
def simpleChar (c : Char) : Bool :=
  c.isAlphanum || c = '.' || c = '-' || c = '_' || c = '+'

/-- A simple file-name component: nonempty, not `.` or `..`, made of simple
characters. -/
def simpleName (s : Str) : Bool :=
  s ≠ [] && s ≠ chars "." && s ≠ chars ".." && s.all simpleChar

/-- An output artifact family produced by a shared-library link step. -/
inductive SharedLibOutput where
  | versioned (real soname link : BPath)
  | dllPair (dll importLib : BPath)
  | single (lib : BPath)
deriving DecidableEq

/-- Python `'{}'.format` on an optional value: `None` prints as `None`. -/
def fmtOptStr : Option Str → Str
  | some s => s
  | none => chars "None"

/-- Truthiness of an optional string. -/
def optTruthy : Option Str → Bool
  | some s => s ≠ []
  | none => false

/-- `CcSharedLibraryLinker._lib_name` (cc.py): split the logical name into
directory and leaf and rebuild the leaf as
`prefix + leaf + shared_library_ext + suffix`. -/
def ccLibName (tp : TargetPlatform) (name : Str) (pfx : Str := chars "lib")
    (sfx : Str := []) : Except PyErr BPath := do
  let p ← mkPath name
  let lf ← p.splitleaf
  lf.1.append (pfx ++ lf.2 ++ tp.sharedLibraryExt ++ sfx)

/-- `CcSharedLibraryLinker.output_file` (cc.py lines 693-715), with the
artifacts reduced to their paths. -/
def ccSharedOutputFile (tp : TargetPlatform) (name : Str)
    (version soversion : Option Str) : Except PyErr SharedLibOutput :=
  if optTruthy version ∧ tp.hasVersionedLibrary then do
    let rs ←
      (if tp.genus = chars "darwin" then do
        let real ← ccLibName tp (name ++ '.' :: fmtOptStr version)
        let soname ← ccLibName tp (name ++ '.' :: fmtOptStr soversion)
        pure (real, soname)
      else do
        let real ← ccLibName tp name (chars "lib") ('.' :: fmtOptStr version)
        let soname ← ccLibName tp name (chars "lib") ('.' :: fmtOptStr soversion)
        pure (real, soname))
    let link ← ccLibName tp name
    .ok (.versioned rs.1 rs.2 link)
  else if tp.hasImportLibrary then do
    let dpfx := if tp.genus = chars "cygwin" then chars "cyg" else []
    let dllname ← ccLibName tp name dpfx
    let impname ← ccLibName tp name (chars "lib") (chars ".a")
    .ok (.dllPair dllname impname)
  else do
    let l ← ccLibName tp name
    .ok (.single l)

/-- A post-build symlink-creation step: create `dest` as a symlink to `src`.
Modelled from the spec: `CopyFile(context, dest, src, mode='symlink')`
(`builtins/copy_file.py` is not among the analyzed sources) records exactly
such a step (§4.3 step 1: "emit symlink-creation as a post-build step"). -/
structure SymlinkStep where
  dest : BPath
  src : BPath
deriving DecidableEq

/-- `CcSharedLibraryLinker.post_build` (cc.py lines 686-691): for a versioned
library, create the `soname → real` and `link → soname` symlinks and return
the `link` name; otherwise do nothing. -/
def ccSharedPostBuild : SharedLibOutput → (List SymlinkStep × Option BPath)
  | .versioned real soname link =>
    ([{ dest := soname, src := real }, { dest := link, src := soname }],
     some link)
  | _ => ([], none)

end Bfg

namespace Bfg

theorem simpleChar_ne_slash {c : Char} (h : simpleChar c = true) : c ≠ '/' := by
  rintro rfl; revert h; decide

theorem simpleChar_ne_bslash {c : Char} (h : simpleChar c = true) : c ≠ '\\' := by
  rintro rfl; revert h; decide

theorem simpleChar_ne_colon {c : Char} (h : simpleChar c = true) : c ≠ ':' := by
  rintro rfl; revert h; decide

theorem simpleName_parts {s : Str} (h : simpleName s = true) :
    s ≠ [] ∧ s ≠ chars "." ∧ s ≠ chars ".." ∧ ∀ c ∈ s, simpleChar c = true := by
  simp only [simpleName, Bool.and_eq_true, decide_eq_true_eq, List.all_eq_true,
    ne_eq] at h
  exact ⟨by simpa using h.1.1.1, by simpa using h.1.1.2, by simpa using h.1.2,
    fun c hc => h.2 c hc⟩

theorem splitSlash_no_slash (s : Str) (h : ∀ c ∈ s, c ≠ '/') :
    splitSlash s = [s] := by
  induction s with
  | nil => rfl
  | cons c cs ih =>
    have hc : c ≠ '/' := h c (by simp)
    have hr := ih (fun x hx => h x (List.mem_cons_of_mem _ hx))
    simp only [splitSlash, hr, if_neg hc]

theorem take1_ne_slash (s : Str) (hne : s ≠ []) (h : ∀ c ∈ s, c ≠ '/') :
    s.take 1 ≠ chars "/" := by
  cases s with
  | nil => exact absurd rfl hne
  | cons c cs =>
    have hc : c ≠ '/' := h c (by simp)
    simp [chars, List.take, hc]

theorem normpath_simple (s : Str) (h : simpleName s = true) : normpath s = s := by
  obtain ⟨hne, hdot, hdd, hall⟩ := simpleName_parts h
  have hslash : ∀ c ∈ s, c ≠ '/' := fun c hc => simpleChar_ne_slash (hall c hc)
  have h1 : s.take 1 ≠ chars "/" := take1_ne_slash s hne hslash
  have hsplit := splitSlash_no_slash s hslash
  simp [normpath, if_neg hne, if_neg h1, hsplit, normLoop, hne, hdot, hdd,
    joinSlash]

end Bfg

namespace Bfg

theorem splitDrive_simple (s : Str) (h : ∀ c ∈ s, c ≠ ':') :
    splitDrive s = ([], s) := by
  match s with
  | [] => rfl
  | [a] => rfl
  | a :: b :: rest =>
    have hb : b ≠ ':' := h b (by simp)
    simp [splitDrive, hb]

theorem map_bslash_id (s : Str) (h : ∀ c ∈ s, c ≠ '\\') :
    s.map bslashToSlash = s := by
  induction s with
  | nil => rfl
  | cons c cs ih =>
    have hc : c ≠ '\\' := h c (by simp)
    simp [bslashToSlash, hc, ih (fun x hx => h x (List.mem_cons_of_mem _ hx))]

theorem pathNormalize_simple (s : Str) (h : simpleName s = true) :
    pathNormalize s = s := by
  obtain ⟨hne, hdot, hdd, hall⟩ := simpleName_parts h
  simp [pathNormalize, normpath_simple s h, hdot]

theorem not_dotdotslash_isPrefixOf (s : Str) (h : ∀ c ∈ s, c ≠ '/') :
    ¬ (chars "../").isPrefixOf s := by
  intro hp
  rw [List.isPrefixOf_iff_prefix] at hp
  obtain ⟨t, rfl⟩ := hp
  exact h '/' (by simp [chars]) rfl

theorem mkPath_simple (s : Str) (h : simpleName s = true) :
    mkPath s .builddir = .ok { suffix := s, root := .builddir, destdir := false } := by
  obtain ⟨hne, hdot, hdd, hall⟩ := simpleName_parts h
  have hslash : ∀ c ∈ s, c ≠ '/' := fun c hc => simpleChar_ne_slash (hall c hc)
  have hbslash : ∀ c ∈ s, c ≠ '\\' := fun c hc => simpleChar_ne_bslash (hall c hc)
  have hcolon : ∀ c ∈ s, c ≠ ':' := fun c hc => simpleChar_ne_colon (hall c hc)
  have h1 : s.take 1 ≠ chars "/" := take1_ne_slash s hne hslash
  simp [mkPath, mkPathD, splitDrive_simple s hcolon, map_bslash_id s hbslash,
    pathNormalize_simple s h, posixIsAbs, h1, hdd,
    not_dotdotslash_isPrefixOf s hslash]

theorem takeWhile_ne_slash_self (s : Str) (h : ∀ c ∈ s, c ≠ '/') :
    List.takeWhile (fun x => !decide (x = '/')) s = s := by
  rw [List.takeWhile_eq_self_iff]
  intro a ha
  simp only [Bool.not_eq_true', decide_eq_false_iff_not]
  exact h a ha

theorem pbasename_no_slash (s : Str) (h : ∀ c ∈ s, c ≠ '/') :
    pbasename s = s := by
  have ht := takeWhile_ne_slash_self s.reverse
    (fun c hc => h c (List.mem_reverse.mp hc))
  simp [pbasename, ht]

theorem pdirname_no_slash (s : Str) (h : ∀ c ∈ s, c ≠ '/') :
    pdirname s = [] := by
  have ht := takeWhile_ne_slash_self s.reverse
    (fun c hc => h c (List.mem_reverse.mp hc))
  simp [pdirname, ht]

theorem parent_simple (s : Str) (hne : s ≠ []) (h : ∀ c ∈ s, c ≠ '/') :
    BPath.parent { suffix := s, root := .builddir, destdir := false } =
      .ok { suffix := [], root := .builddir, destdir := false } := by
  simp only [BPath.parent, hne, pdirname_no_slash s h]
  simp [mkPathD, splitDrive, pathNormalize, normpath, posixIsAbs, chars]

theorem append_simple (t : Str) (h : simpleName t = true) :
    BPath.append { suffix := [], root := .builddir, destdir := false } t =
      .ok { suffix := t, root := .builddir, destdir := false } := by
  obtain ⟨hne, hdot, hdd, hall⟩ := simpleName_parts h
  have hslash : ∀ c ∈ t, c ≠ '/' := fun c hc => simpleChar_ne_slash (hall c hc)
  have hbslash : ∀ c ∈ t, c ≠ '\\' := fun c hc => simpleChar_ne_bslash (hall c hc)
  have hcolon : ∀ c ∈ t, c ≠ ':' := fun c hc => simpleChar_ne_colon (hall c hc)
  have h1 : t.take 1 ≠ chars "/" := take1_ne_slash t hne hslash
  have hjoin : joinNorm [] t = t := by
    simp [joinNorm, pjoin, h1, pathNormalize_simple t h]
  simp [BPath.append, splitDrive_simple t hcolon, map_bslash_id t hbslash,
    pathNormalize_simple t h, posixIsAbs, h1, hjoin]
  simpa [mkPath] using mkPath_simple t h

end Bfg

namespace Bfg

theorem allSimple_of_simpleName {s : Str} (h : simpleName s = true) :
    s.all simpleChar = true :=
  List.all_eq_true.mpr (fun c hc => (simpleName_parts h).2.2.2 c hc)

theorem simpleName_append (s t : Str) (hs : simpleName s = true)
    (ht : t ≠ []) (hta : t.all simpleChar = true) :
    simpleName (s ++ t) = true := by
  obtain ⟨hne, hdot, hdd, hall⟩ := simpleName_parts hs
  have hall2 : ∀ c ∈ s ++ t, simpleChar c = true := by
    intro c hc
    rcases List.mem_append.mp hc with h1 | h1
    · exact hall c h1
    · exact List.all_eq_true.mp hta c h1
  have hne2 : s ++ t ≠ [] := by simp [hne]
  have hl1 : 1 ≤ s.length := List.length_pos.mpr hne
  have hl2 : 1 ≤ t.length := List.length_pos.mpr ht
  have hd1 : s ++ t ≠ chars "." := by
    intro he
    have hlen := congrArg List.length he
    simp [chars] at hlen
    omega
  have hd2 : s ++ t ≠ chars ".." := by
    intro he
    have hlen := congrArg List.length he
    simp [chars] at hlen
    have hs1 : s.length = 1 := by omega
    have ht1 : t.length = 1 := by omega
    obtain ⟨a, rfl⟩ := List.length_eq_one.mp hs1
    obtain ⟨b, rfl⟩ := List.length_eq_one.mp ht1
    simp [chars] at he
    exact hdot (by simp [chars, he.1])
  simp only [simpleName, Bool.and_eq_true, decide_eq_true_eq, List.all_eq_true,
    ne_eq]
  exact ⟨⟨⟨by simpa using hne2, by simpa using hd1⟩, by simpa using hd2⟩, hall2⟩

theorem exc_bind_ok {α β : Type} (a : α) (f : α → Except PyErr β) :
    (Except.ok a : Except PyErr α) >>= f = f a := rfl

theorem exc_bind_err {α β : Type} (e : PyErr) (f : α → Except PyErr β) :
    (Except.error e : Except PyErr α) >>= f = Except.error e := rfl

theorem exc_pure_eq {α : Type} (a : α) :
    (pure a : Except PyErr α) = Except.ok a := rfl

theorem ccLibName_ok (tp : TargetPlatform) (name pfx sfx : Str)
    (hn : simpleName name = true)
    (harg : simpleName (pfx ++ name ++ tp.sharedLibraryExt ++ sfx) = true) :
    ccLibName tp name pfx sfx =
      .ok { suffix := pfx ++ name ++ tp.sharedLibraryExt ++ sfx,
            root := .builddir, destdir := false } := by
  obtain ⟨hne, hdot, hdd, hall⟩ := simpleName_parts hn
  have hslash : ∀ c ∈ name, c ≠ '/' := fun c hc => simpleChar_ne_slash (hall c hc)
  have h1 := mkPath_simple name hn
  have h2 := parent_simple name hne hslash
  have h3 := pbasename_no_slash name hslash
  have h4 := append_simple (pfx ++ name ++ tp.sharedLibraryExt ++ sfx) harg
  simp [ccLibName, h1, BPath.splitleaf, h2, BPath.basename, h3,
    exc_bind_ok, exc_bind_err, exc_pure_eq]
  simpa using h4

end Bfg

namespace Bfg

/-- C1: for a shared-library link step with a version and soversion on a
platform with versioned shared libraries, `CcSharedLibraryLinker.output_file`
returns a `VersionedSharedLibrary` named `lib<name>.<version>.dylib` /
`lib<name>.<soversion>.dylib` / `lib<name>.dylib` on Darwin and
`lib<name>.so.<version>` / `lib<name>.so.<soversion>` / `lib<name>.so` on
ELF platforms, and `post_build` emits the symlink steps
`soname → real` and `link → soname`. -/
theorem cc_versioned_shared_library_naming (name v sv : Str)
    (hn : simpleName name = true) (hv : simpleName v = true)
    (hsv : simpleName sv = true) :
    ccSharedOutputFile darwinPlatform name (some v) (some sv) =
      .ok (.versioned
        { suffix := chars "lib" ++ (name ++ '.' :: v) ++ chars ".dylib",
          root := .builddir, destdir := false }
        { suffix := chars "lib" ++ (name ++ '.' :: sv) ++ chars ".dylib",
          root := .builddir, destdir := false }
        { suffix := chars "lib" ++ name ++ chars ".dylib",
          root := .builddir, destdir := false }) ∧
    ccSharedOutputFile linuxPlatform name (some v) (some sv) =
      .ok (.versioned
        { suffix := chars "lib" ++ name ++ chars ".so" ++ '.' :: v,
          root := .builddir, destdir := false }
        { suffix := chars "lib" ++ name ++ chars ".so" ++ '.' :: sv,
          root := .builddir, destdir := false }
        { suffix := chars "lib" ++ name ++ chars ".so",
          root := .builddir, destdir := false }) ∧
    (∀ real soname link : BPath,
      ccSharedPostBuild (.versioned real soname link) =
        ([{ dest := soname, src := real }, { dest := link, src := soname }],
         some link)) := by
  obtain ⟨hne, hdot, hdd, hall⟩ := simpleName_parts hn
  have hvne : v ≠ [] := (simpleName_parts hv).1
  have hsvne : sv ≠ [] := (simpleName_parts hsv).1
  have hva := allSimple_of_simpleName hv
  have hsva := allSimple_of_simpleName hsv
  have hna := allSimple_of_simpleName hn
  have hdotchar : simpleChar '.' = true := by decide
  have hlib : simpleName (chars "lib") = true := by decide
  have hdylib_ne : chars ".dylib" ≠ [] := by decide
  have hdylib_all : (chars ".dylib").all simpleChar = true := by decide
  have hso_ne : chars ".so" ≠ [] := by decide
  have hso_all : (chars ".so").all simpleChar = true := by decide
  have hnmv : simpleName (name ++ '.' :: v) = true :=
    simpleName_append name ('.' :: v) hn (by simp)
      (by simp [List.all_cons, hdotchar, hva])
  have hnmsv : simpleName (name ++ '.' :: sv) = true :=
    simpleName_append name ('.' :: sv) hn (by simp)
      (by simp [List.all_cons, hdotchar, hsva])
  have hlibname : simpleName (chars "lib" ++ name) = true :=
    simpleName_append (chars "lib") name hlib hne hna
  have hlibnmv : simpleName (chars "lib" ++ (name ++ '.' :: v)) = true :=
    simpleName_append (chars "lib") (name ++ '.' :: v) hlib (by simp [hne])
      (by simp [List.all_append, List.all_cons, hna, hdotchar, hva])
  have hlibnmsv : simpleName (chars "lib" ++ (name ++ '.' :: sv)) = true :=
    simpleName_append (chars "lib") (name ++ '.' :: sv) hlib (by simp [hne])
      (by simp [List.all_append, List.all_cons, hna, hdotchar, hsva])
  have hlibnmso : simpleName (chars "lib" ++ name ++ chars ".so") = true :=
    simpleName_append _ (chars ".so") hlibname hso_ne hso_all
  have hd1 := ccLibName_ok darwinPlatform (name ++ '.' :: v) (chars "lib") []
    hnmv (by
      simp only [List.append_nil]
      exact simpleName_append _ (chars ".dylib") hlibnmv hdylib_ne hdylib_all)
  have hd2 := ccLibName_ok darwinPlatform (name ++ '.' :: sv) (chars "lib") []
    hnmsv (by
      simp only [List.append_nil]
      exact simpleName_append _ (chars ".dylib") hlibnmsv hdylib_ne hdylib_all)
  have hd3 := ccLibName_ok darwinPlatform name (chars "lib") [] hn
    (by
      simp only [List.append_nil]
      exact simpleName_append _ (chars ".dylib") hlibname hdylib_ne hdylib_all)
  have hl1 := ccLibName_ok linuxPlatform name (chars "lib") ('.' :: v) hn
    (by
      exact simpleName_append _ ('.' :: v) hlibnmso (by simp)
        (by simp [List.all_cons, hdotchar, hva]))
  have hl2 := ccLibName_ok linuxPlatform name (chars "lib") ('.' :: sv) hn
    (by
      exact simpleName_append _ ('.' :: sv) hlibnmso (by simp)
        (by simp [List.all_cons, hdotchar, hsva]))
  have hl3 := ccLibName_ok linuxPlatform name (chars "lib") [] hn
    (by
      simp only [List.append_nil]
      exact hlibnmso)
  refine ⟨?_, ?_, ?_⟩
  · simp only [ccSharedOutputFile, darwinPlatform, optTruthy, fmtOptStr] at hd1 hd2 hd3 ⊢
    simp [hd1, hd2, hd3, hvne, exc_bind_ok, exc_bind_err, exc_pure_eq]
  · simp only [ccSharedOutputFile, linuxPlatform, optTruthy, fmtOptStr] at hl1 hl2 hl3 ⊢
    simp [hl1, hl2, hl3, hvne, exc_bind_ok, exc_bind_err, exc_pure_eq,
      show ¬ (chars "linux" = chars "darwin") from by decide]
  · intro real soname link
    rfl

end Bfg

namespace Bfg

/-- Witness for C1 at name `foo`, version `1.2.3`, soversion `1`:
`libfoo.1.2.3.dylib` / `libfoo.1.dylib` / `libfoo.dylib` and
`libfoo.so.1.2.3` / `libfoo.so.1` / `libfoo.so`. -/
theorem cc_versioned_shared_library_naming_witness :
    ccSharedOutputFile darwinPlatform (chars "foo") (some (chars "1.2.3"))
        (some (chars "1")) =
      .ok (.versioned
        { suffix := chars "lib" ++ (chars "foo" ++ '.' :: chars "1.2.3") ++
            chars ".dylib", root := .builddir, destdir := false }
        { suffix := chars "lib" ++ (chars "foo" ++ '.' :: chars "1") ++
            chars ".dylib", root := .builddir, destdir := false }
        { suffix := chars "lib" ++ chars "foo" ++ chars ".dylib",
          root := .builddir, destdir := false }) ∧
    ccSharedOutputFile linuxPlatform (chars "foo") (some (chars "1.2.3"))
        (some (chars "1")) =
      .ok (.versioned
        { suffix := chars "lib" ++ chars "foo" ++ chars ".so" ++ '.' ::
            chars "1.2.3", root := .builddir, destdir := false }
        { suffix := chars "lib" ++ chars "foo" ++ chars ".so" ++ '.' ::
            chars "1", root := .builddir, destdir := false }
        { suffix := chars "lib" ++ chars "foo" ++ chars ".so",
          root := .builddir, destdir := false }) ∧
    (∀ real soname link : BPath,
      ccSharedPostBuild (.versioned real soname link) =
        ([{ dest := soname, src := real }, { dest := link, src := soname }],
         some link)) :=
  cc_versioned_shared_library_naming (chars "foo") (chars "1.2.3") (chars "1")
    (by decide) (by decide) (by decide)

end Bfg

namespace Bfg

/-- A fragment of a command-line token: either a literal string or a path
(`safe_str` values are concatenations of these). -/
inductive SPiece where
  | s (v : Str)
  | p (v : BPath)
deriving DecidableEq

/-- A single command-line token (a `safe_str` concatenation). -/
abbrev Tok := List SPiece

/-- The output binary a link step produces (as far as rpath computation is
concerned: its path). -/
structure OutputBin where
  path : BPath
deriving DecidableEq

/-- The identification of the raw link-editor found at builder construction
(`builder.linker('raw')`): its brand and parsed version. -/
structure LdInfo where
  brand : Str
  version : List Nat
deriving DecidableEq

/-- The `fix_rpath` test of `CcLinker._local_rpath`: the raw link-editor
exists, its brand is `bfd` and its version is in `SpecifierSet('<2.28')`;
a missing raw linker (`KeyError`) yields `False`. -/
def fixRpathFlag (rawLinker : Option LdInfo) : Bool :=
  match rawLinker with
  | some ld => decide (ld.brand = chars "bfd") && specLt228 ld.version
  | none => false

/-- `CcLinker._local_rpath` (cc.py lines 421-458): the build-time rpath and
rpath-link entries contributed by one linked library. -/
def localRpath (objectFormat : Str) (rawLinker : Option LdInfo)
    (library : LinkedLib) (output : Option OutputBin) :
    Except PyErr (List SPiece × List BPath) :=
  if ¬ library.isLibrary then .ok ([], [])
  else
    match library.runtimeFile? with
    | some runtimeLib =>
      if objectFormat = chars "elf" then do
        let path := (← runtimeLib.path.parent).cross
        let rp : SPiece ←
          (if path.root ≠ .absolute ∧ ¬ path.root.isInstallRoot then
            match output with
            | none => .error (.valueError (chars "unable to construct rpath"))
            | some out =>
              if path.root = out.path.root then do
                let op ← out.path.parent
                let rel ← path.relpath op (chars "$ORIGIN")
                .ok (.s rel)
              else .ok (.p path)
          else .ok (.p path))
        let rpathLink ←
          (if output.isSome ∧ fixRpathFlag rawLinker = true then
            (recursiveWalk runtimeLib).mapM (fun d => d.path.parent)
          else .ok [])
        .ok ([rp], rpathLink)
      else .ok ([], [])
    | none => .ok ([], [])

end Bfg

namespace Bfg

/-- C2: for a cc link of a shared-library dependency on an ELF target with an
identified raw link-editor, the extra `-rpath-link` entries (parent
directories of the recursively walked runtime dependencies) are produced
exactly when the link-editor brand is `bfd` with version below 2.28; 2.27 is
below the threshold and 2.28 is not. -/
theorem cc_rpath_link_bfd_workaround
    (brand : Str) (ver : List Nat) (libPath : BPath) (creator : Bool)
    (rt : RTFile) (out : OutputBin) (pp op : BPath)
    (walkParents : List BPath)
    (hpp : rt.path.parent = .ok pp)
    (hroot : pp.root = .builddir)
    (houtroot : out.path.root = .builddir)
    (hop : out.path.parent = .ok op)
    (hoproot : op.root = .builddir)
    (hwalk : (recursiveWalk rt).mapM (fun d => d.path.parent) =
      .ok walkParents) :
    (∃ rel : Str,
      localRpath (chars "elf") (some { brand := brand, version := ver })
          (.sharedLib libPath (some rt) creator) (some out) =
        .ok ([SPiece.s rel],
          if brand = chars "bfd" ∧ specLt228 ver = true then walkParents
          else [])) ∧
    specLt228 [2, 27] = true ∧ specLt228 [2, 28] = false := by
  refine ⟨?_, by decide, by decide⟩
  obtain ⟨r, hr⟩ : ∃ r, pp.relpath op (chars "$ORIGIN") = .ok r := by
    rw [BPath.relpath, if_neg (by simp [hroot]),
      if_neg (by simp [hroot, hoproot])]
    by_cases hc : chars "$ORIGIN" ≠ [] ∧
        prelpath pp.suffix op.suffix = chars "."
    · rw [if_pos hc]; exact ⟨_, rfl⟩
    · rw [if_neg hc]; exact ⟨_, rfl⟩
  refine ⟨r, ?_⟩
  have hwalk2 : List.mapM.loop (fun d => d.path.parent) (recursiveWalk rt) []
      = Except.ok walkParents := hwalk
  unfold localRpath
  rw [if_neg (by simp [LinkedLib.isLibrary])]
  simp only [LinkedLib.runtimeFile?, if_true]
  simp only [hpp, exc_bind_ok, BPath.cross]
  rw [if_pos (show pp.root ≠ RootT.absolute ∧
        ¬ pp.root.isInstallRoot = true by rw [hroot]; exact (by decide))]
  rw [if_pos (show pp.root = out.path.root by rw [hroot, houtroot])]
  simp only [hop, exc_bind_ok, hr]
  by_cases hb : brand = chars "bfd" ∧ specLt228 ver = true
  · have hfix : fixRpathFlag (some { brand := brand, version := ver }) =
        true := by simp [fixRpathFlag, hb.1, hb.2]
    rw [if_pos (by simp [hfix])]
    simp only [List.mapM, hwalk2, exc_bind_ok]
    rw [if_pos hb]
  · have hfix : fixRpathFlag (some { brand := brand, version := ver }) =
        false := by
      simp only [fixRpathFlag]
      rcases Bool.eq_false_or_eq_true (specLt228 ver) with hs | hs
      · have hnb : brand ≠ chars "bfd" := fun hbb => hb ⟨hbb, hs⟩
        simp [hs, hnb]
      · simp [hs]
    rw [if_neg (by simp [hfix])]
    simp only [exc_bind_ok]
    rw [if_neg hb]

end Bfg

namespace Bfg

/-- Witness for C2: a shared library `sub/libdep.so` with one runtime
dependency `sub2/libdep2.so`, linked into `bin/prog`: a `bfd` 2.27 raw linker
yields the rpath-link entry `sub2`, a `bfd` 2.28 raw linker yields none. -/
theorem cc_rpath_link_bfd_workaround_witness :
    (∃ rel : Str,
      localRpath (chars "elf")
          (some { brand := chars "bfd", version := [2, 27] })
          (.sharedLib { suffix := chars "sub/libdep.so", root := .builddir }
            (some (.node
              { suffix := chars "sub/libdep.so", root := .builddir }
              [.node { suffix := chars "sub2/libdep2.so", root := .builddir }
                []])) false)
          (some { path := { suffix := chars "bin/prog", root := .builddir } })
        = .ok ([SPiece.s rel],
            [{ suffix := chars "sub2", root := .builddir }])) ∧
    (∃ rel : Str,
      localRpath (chars "elf")
          (some { brand := chars "bfd", version := [2, 28] })
          (.sharedLib { suffix := chars "sub/libdep.so", root := .builddir }
            (some (.node
              { suffix := chars "sub/libdep.so", root := .builddir }
              [.node { suffix := chars "sub2/libdep2.so", root := .builddir }
                []])) false)
          (some { path := { suffix := chars "bin/prog", root := .builddir } })
        = .ok ([SPiece.s rel], [])) := by
  constructor
  · obtain ⟨rel, h⟩ := (cc_rpath_link_bfd_workaround (chars "bfd") [2, 27]
      { suffix := chars "sub/libdep.so", root := .builddir } false
      (.node { suffix := chars "sub/libdep.so", root := .builddir }
        [.node { suffix := chars "sub2/libdep2.so", root := .builddir } []])
      { path := { suffix := chars "bin/prog", root := .builddir } }
      { suffix := chars "sub", root := .builddir }
      { suffix := chars "bin", root := .builddir }
      [{ suffix := chars "sub2", root := .builddir }]
      (by rfl) rfl rfl (by rfl) rfl (by rfl)).1
    rw [if_pos (by decide)] at h
    exact ⟨rel, h⟩
  · obtain ⟨rel, h⟩ := (cc_rpath_link_bfd_workaround (chars "bfd") [2, 28]
      { suffix := chars "sub/libdep.so", root := .builddir } false
      (.node { suffix := chars "sub/libdep.so", root := .builddir }
        [.node { suffix := chars "sub2/libdep2.so", root := .builddir } []])
      { path := { suffix := chars "bin/prog", root := .builddir } }
      { suffix := chars "sub", root := .builddir }
      { suffix := chars "bin", root := .builddir }
      [{ suffix := chars "sub2", root := .builddir }]
      (by rfl) rfl rfl (by rfl) rfl (by rfl)).1
    rw [if_neg (by decide)] at h
    exact ⟨rel, h⟩

end Bfg

namespace Bfg

/-- The matcher of `CcLinker.__init__`'s compiled regular expression
`(?:lib(.*)\.a|lib(.*)<so_ext>)$` applied with `re.match` (the second
alternative is present only when the target platform has no import
libraries).  Both alternatives anchor `lib` at the start and their extension
at the end; the greedy group is everything in between, so the match is
equivalent to this prefix/suffix stripping.  The result is the first
non-`None` group (`CcLinker._extract_lib_name`). -/
def ccLibReMatch (hasImportLib : Bool) (soExt : Str) (s : Str) : Option Str :=
  match dropPrefixQ (chars "lib") s with
  | none => none
  | some rest =>
    match stripSuffixQ (chars ".a") rest with
    | some mid => some mid
    | none =>
      if hasImportLib then none
      else stripSuffixQ soExt rest

/-- `CcLinker._extract_lib_name` (cc.py lines 346-354) on a basename. -/
def ccExtractLibName (hasImportLib : Bool) (soExt : Str) (basename : Str) :
    Except PyErr Str :=
  match ccLibReMatch hasImportLib soExt basename with
  | some nm => .ok nm
  | none => .error (.valueError
      (quoted basename ++ chars " is not a valid library name"))

/-- The matcher of `MsvcLinker.__lib_re` (`(.*)\.lib$`) under `re.match`. -/
def msvcLibReMatch (s : Str) : Option Str := stripSuffixQ (chars ".lib") s

/-- `MsvcLinker._extract_lib_name` (msvc.py lines 322-328) on a basename. -/
def msvcExtractLibName (basename : Str) : Except PyErr Str :=
  match msvcLibReMatch basename with
  | some nm => .ok nm
  | none => .error (.valueError
      (quoted basename ++ chars " is not a valid library name"))

theorem dropPrefixQ_append (p t : Str) : dropPrefixQ p (p ++ t) = some t := by
  induction p with
  | nil => simp [dropPrefixQ]
  | cons a as ih => simp [dropPrefixQ, ih]

theorem stripSuffixQ_append (suf xs : Str) :
    stripSuffixQ suf (xs ++ suf) = some xs := by
  simp [stripSuffixQ, List.reverse_append, dropPrefixQ_append]

theorem dropPrefixQ_cons_ne {a b : Char} (as bs : Str) (h : a ≠ b) :
    dropPrefixQ (a :: as) (b :: bs) = none := by
  simp [dropPrefixQ, h]

end Bfg

namespace Bfg

/-- C7: round trip of library naming.  `lib<name>.a` always recovers
`<name>`; on platforms without import libraries `lib<name>.so` (ELF) and
`lib<name>.dylib` (Darwin) recover `<name>`; `<name>.lib` recovers `<name>`
for the msvc family; any basename matching no convention raises the
"not a valid library name" error naming the basename. -/
theorem extract_lib_name_round_trip :
    (∀ (hasImp : Bool) (soExt name : Str),
      ccExtractLibName hasImp soExt (chars "lib" ++ name ++ chars ".a") =
        .ok name) ∧
    (∀ name : Str,
      ccExtractLibName false (chars ".so")
          (chars "lib" ++ name ++ chars ".so") = .ok name ∧
      ccExtractLibName false (chars ".dylib")
          (chars "lib" ++ name ++ chars ".dylib") = .ok name) ∧
    (∀ (hasImp : Bool) (soExt s : Str), ccLibReMatch hasImp soExt s = none →
      ccExtractLibName hasImp soExt s =
        .error (.valueError
          (quoted s ++ chars " is not a valid library name"))) ∧
    (∀ name : Str, msvcExtractLibName (name ++ chars ".lib") = .ok name) ∧
    (∀ s : Str, msvcLibReMatch s = none →
      msvcExtractLibName s =
        .error (.valueError
          (quoted s ++ chars " is not a valid library name"))) := by
  have hdropA : ∀ name : Str,
      dropPrefixQ (chars "lib") (chars "lib" ++ name) = some name :=
    fun name => dropPrefixQ_append (chars "lib") name
  refine ⟨?_, ?_, ?_, ?_, ?_⟩
  · intro hasImp soExt name
    have h1 : dropPrefixQ (chars "lib")
        (chars "lib" ++ (name ++ chars ".a")) = some (name ++ chars ".a") :=
      dropPrefixQ_append _ _
    simp [ccExtractLibName, ccLibReMatch, h1, stripSuffixQ_append]
  · intro name
    constructor
    · have h1 : dropPrefixQ (chars "lib")
          (chars "lib" ++ (name ++ chars ".so")) = some (name ++ chars ".so") :=
        dropPrefixQ_append _ _
      have h2 : stripSuffixQ (chars ".a") (name ++ chars ".so") = none := by
        have hr : (chars ".a").reverse = chars "a." := by decide
        have hr2 : (chars ".so").reverse = chars "os." := by decide
        simp only [stripSuffixQ, List.reverse_append, hr, hr2]
        rw [show chars "os." ++ name.reverse =
          'o' :: 's' :: '.' :: name.reverse from rfl]
        rw [show chars "a." = 'a' :: ['.'] from rfl]
        rw [dropPrefixQ_cons_ne _ _ (by decide)]
        rfl
      simp [ccExtractLibName, ccLibReMatch, h1, h2, stripSuffixQ_append]
    · have h1 : dropPrefixQ (chars "lib")
          (chars "lib" ++ (name ++ chars ".dylib")) = some (name ++ chars ".dylib") :=
        dropPrefixQ_append _ _
      have h2 : stripSuffixQ (chars ".a") (name ++ chars ".dylib") = none := by
        have hr : (chars ".a").reverse = chars "a." := by decide
        have hr2 : (chars ".dylib").reverse = chars "bilyd." := by decide
        simp only [stripSuffixQ, List.reverse_append, hr, hr2]
        rw [show chars "bilyd." ++ name.reverse =
          'b' :: 'i' :: 'l' :: 'y' :: 'd' :: '.' :: name.reverse from rfl]
        rw [show chars "a." = 'a' :: ['.'] from rfl]
        rw [dropPrefixQ_cons_ne _ _ (by decide)]
        rfl
      simp [ccExtractLibName, ccLibReMatch, h1, h2, stripSuffixQ_append]
  · intro hasImp soExt s hnone
    simp [ccExtractLibName, hnone]
  · intro name
    simp [msvcExtractLibName, msvcLibReMatch, stripSuffixQ_append]
  · intro s hnone
    simp [msvcExtractLibName, hnone]

/-- Witness for C7: `libfoo.a`, `libfoo.so`, `libfoo.dylib` and `foo.lib`
recover `foo`; `foo.txt` matches no convention and raises the error. -/
theorem extract_lib_name_round_trip_witness :
    ccExtractLibName true (chars ".so")
        (chars "lib" ++ chars "foo" ++ chars ".a") = .ok (chars "foo") ∧
    ccExtractLibName false (chars ".so")
        (chars "lib" ++ chars "foo" ++ chars ".so") = .ok (chars "foo") ∧
    ccExtractLibName false (chars ".dylib")
        (chars "lib" ++ chars "foo" ++ chars ".dylib") = .ok (chars "foo") ∧
    msvcExtractLibName (chars "foo" ++ chars ".lib") = .ok (chars "foo") ∧
    ccExtractLibName false (chars ".so") (chars "foo.txt") =
      .error (.valueError
        (quoted (chars "foo.txt") ++ chars " is not a valid library name")) ∧
    msvcExtractLibName (chars "foo.txt") =
      .error (.valueError
        (quoted (chars "foo.txt") ++ chars " is not a valid library name")) :=
  ⟨extract_lib_name_round_trip.1 true (chars ".so") (chars "foo"),
   (extract_lib_name_round_trip.2.1 (chars "foo")).1,
   (extract_lib_name_round_trip.2.1 (chars "foo")).2,
   extract_lib_name_round_trip.2.2.2.1 (chars "foo"),
   extract_lib_name_round_trip.2.2.1 false (chars ".so") (chars "foo.txt")
     (by decide),
   extract_lib_name_round_trip.2.2.2.2 (chars "foo.txt") (by decide)⟩

end Bfg

namespace Bfg

/-- `JvmBuilder.linker` (jvm.py lines 110-117), abstracted over the type of
the single `JarMaker` object the builder holds in `self._linker`. -/
def jvmLinker {α : Type} (brand : Str) (jarMaker : α) (mode : Str) :
    Except PyErr α :=
  if mode = chars "static_library" then
    .error (.valueError (chars "static linking not supported with " ++ brand))
  else if ¬ (mode = chars "executable" ∨ mode = chars "shared_library") then
    .error (.keyError mode)
  else .ok jarMaker

/-- C10: `JvmBuilder.linker` raises a "static linking not supported" error
for `static_library`, a `KeyError` for any mode other than `executable`,
`shared_library` or `static_library`, and returns the builder's single
`JarMaker` object for both `executable` and `shared_library`. -/
theorem jvm_linker_mode_behavior {α : Type} (brand : Str) (jar : α) :
    jvmLinker brand jar (chars "static_library") =
      .error (.valueError
        (chars "static linking not supported with " ++ brand)) ∧
    (∀ mode : Str, mode ≠ chars "executable" →
      mode ≠ chars "shared_library" → mode ≠ chars "static_library" →
      jvmLinker brand jar mode = .error (.keyError mode)) ∧
    jvmLinker brand jar (chars "executable") = .ok jar ∧
    jvmLinker brand jar (chars "shared_library") = .ok jar := by
  refine ⟨by simp [jvmLinker], ?_,
    by simp [jvmLinker, show ¬ chars "executable" = chars "static_library"
      from by decide],
    by simp [jvmLinker, show ¬ chars "shared_library" = chars "static_library"
      from by decide]⟩
  intro mode h1 h2 h3
  simp [jvmLinker, h1, h2, h3]

/-- Witness for C10 at brand `openjdk`, mode `raw`, with the jar maker
modelled as a token. -/
theorem jvm_linker_mode_behavior_witness :
    jvmLinker (chars "openjdk") (0 : Nat) (chars "static_library") =
      .error (.valueError
        (chars "static linking not supported with " ++ chars "openjdk")) ∧
    jvmLinker (chars "openjdk") (0 : Nat) (chars "raw") =
      .error (.keyError (chars "raw")) ∧
    jvmLinker (chars "openjdk") (0 : Nat) (chars "executable") = .ok 0 ∧
    jvmLinker (chars "openjdk") (0 : Nat) (chars "shared_library") = .ok 0 :=
  ⟨(jvm_linker_mode_behavior (chars "openjdk") 0).1,
   (jvm_linker_mode_behavior (chars "openjdk") 0).2.1 (chars "raw")
     (by decide) (by decide) (by decide),
   (jvm_linker_mode_behavior (chars "openjdk") 0).2.2.1,
   (jvm_linker_mode_behavior (chars "openjdk") 0).2.2.2⟩

end Bfg

namespace Bfg

/-- A regex word character (`\w`): alphanumeric or underscore. -/
def isWordChar (c : Char) : Bool := c.isAlphanum || c = '_'

/-- A match of `Java\(TM\) (\w+ )?Runtime Environment` anchored at the start
of `s`.  Since `\w` cannot match a space, the optional group matches either
nothing or exactly the maximal word before a space, so greedy matching with
backtracking collapses to these two candidates. -/
def javaTMHere (s : Str) : Bool :=
  match dropPrefixQ (chars "Java(TM) ") s with
  | none => false
  | some rest =>
    (chars "Runtime Environment").isPrefixOf rest ||
    (decide (rest.takeWhile isWordChar ≠ []) &&
      (match rest.drop (rest.takeWhile isWordChar).length with
       | c :: r2 =>
         decide (c = ' ') && (chars "Runtime Environment").isPrefixOf r2
       | [] => false))

/-- `re.search` with the `Java\(TM\)` runtime banner pattern (jvm.py line
77): try a match at every position. -/
def searchJavaTM : Str → Bool
  | [] => false
  | c :: cs => javaTMHere (c :: cs) || searchJavaTM cs

/-- The runtime-brand classification of `JvmBuilder._parse_brand` for Java:
the runtime's `-version` output (or `None` when the probe raised) is matched
against the Oracle and OpenJDK banners. -/
def javaRuntimeBrand (runOutput : Option Str) : Str :=
  match runOutput with
  | none => chars "unknown"
  | some out =>
    if searchJavaTM out then chars "oracle"
    else if containsSub (chars "OpenJDK Runtime Environment") out then
      chars "openjdk"
    else chars "unknown"

/-- `JvmBuilder._parse_brand` (jvm.py lines 65-91): brand and version for a
JVM language.  `runOutput` is the captured runtime `-version` output (`none`
when the probe raised `OSError`/`CalledProcessError`); `versionOutput` is the
compiler's own version output; `detect` models `detect_version`. -/
def jvmParseBrand (lang : Str) (runOutput : Option Str) (versionOutput : Str)
    (detect : Str → Option (List Nat)) :
    Except PyErr (Str × Option (List Nat)) :=
  if lang = chars "java" then
    .ok (javaRuntimeBrand runOutput, detect versionOutput)
  else if lang = chars "scala" then
    if containsSub (chars "EPFL") versionOutput then
      .ok (chars "epfl", detect versionOutput)
    else .ok (chars "unknown", none)
  else .error (.valueError (chars "unrecognized language " ++ quoted lang))

/-- Fold decimal digits into a number. -/
def parseNatDigits (s : Str) : Nat :=
  s.foldl (fun n c => n * 10 + (c.toNat - 48)) 0

/-- Split a string at every dot. -/
def splitDot : Str → List Str
  | [] => [[]]
  | c :: cs =>
    let r := splitDot cs
    if c = '.' then [] :: r
    else
      match r with
      | g :: gs => (c :: g) :: gs
      | [] => [[c]]

/-- Modelled from the spec: `detect_version` (`bfg9000/versioning.py`, not
among the analyzed sources) extracts a semantic version number from
free-text subprocess output (§4.1, §2 "Toolchain Identification").  Modelled
as: the first maximal run of digits and dots that starts with a digit, read
as dot-separated numeric components (empty components discarded). -/
def detectVersionModel : Str → Option (List Nat)
  | [] => none
  | c :: cs =>
    if c.isDigit then
      some ((splitDot ((c :: cs).takeWhile (fun x => x.isDigit || x = '.'))
        |>.filter (· ≠ [])).map parseNatDigits)
    else detectVersionModel cs

/-- Counterexample for C8: for Scala, a version-flag output that carries a
parseable version but no `EPFL` marker yields brand `unknown` with version
`None`, although `detect_version` applied to the same output finds `2.11.6`:
the version is not parsed independently of brand detection for Scala. -/
theorem jvm_scala_version_counterexample :
    jvmParseBrand (chars "scala") none
        (chars "Scala code runner version 2.11.6 -- Copyright Somebody")
        detectVersionModel = .ok (chars "unknown", none) ∧
    detectVersionModel
        (chars "Scala code runner version 2.11.6 -- Copyright Somebody") =
      some [2, 11, 6] := by
  constructor
  · rfl
  · rfl

/-- C8 (amended): for Java the brand comes from the runtime banner
(`Java(TM) ... Runtime Environment` → `oracle`, `OpenJDK Runtime
Environment` → `openjdk`, else `unknown`, also when the probe failed) and
the version is parsed from the compiler's own version output independently
of brand detection (so a version is returned even when the brand is
`unknown`); for Scala an `EPFL` marker yields brand `epfl` with the parsed
version, and otherwise brand `unknown` with no version at all. -/
theorem jvm_parse_brand_behavior :
    (∀ (runOutput : Option Str) (versionOutput : Str)
        (detect : Str → Option (List Nat)),
      jvmParseBrand (chars "java") runOutput versionOutput detect =
        .ok (javaRuntimeBrand runOutput, detect versionOutput)) ∧
    javaRuntimeBrand none = chars "unknown" ∧
    (∀ out : Str, searchJavaTM out = true →
      javaRuntimeBrand (some out) = chars "oracle") ∧
    (∀ out : Str, searchJavaTM out = false →
      containsSub (chars "OpenJDK Runtime Environment") out = true →
      javaRuntimeBrand (some out) = chars "openjdk") ∧
    (∀ out : Str, searchJavaTM out = false →
      containsSub (chars "OpenJDK Runtime Environment") out = false →
      javaRuntimeBrand (some out) = chars "unknown") ∧
    (∀ (runOutput : Option Str) (versionOutput : Str)
        (detect : Str → Option (List Nat)),
      containsSub (chars "EPFL") versionOutput = true →
      jvmParseBrand (chars "scala") runOutput versionOutput detect =
        .ok (chars "epfl", detect versionOutput)) ∧
    (∀ (runOutput : Option Str) (versionOutput : Str)
        (detect : Str → Option (List Nat)),
      containsSub (chars "EPFL") versionOutput = false →
      jvmParseBrand (chars "scala") runOutput versionOutput detect =
        .ok (chars "unknown", none)) := by
  have hsj : ¬ chars "scala" = chars "java" := by decide
  refine ⟨fun r v d => by simp [jvmParseBrand], rfl,
    fun out h => by simp [javaRuntimeBrand, h],
    fun out h1 h2 => by simp [javaRuntimeBrand, h1, h2],
    fun out h1 h2 => by simp [javaRuntimeBrand, h1, h2],
    fun r v d h => by simp [jvmParseBrand, hsj, h],
    fun r v d h => by simp [jvmParseBrand, hsj, h]⟩

/-- Witness for C8 (amended) at the repository's own test inputs: the Oracle
and OpenJDK banners, an unmatched banner (version still parsed for Java),
and the EPFL Scala banner. -/
theorem jvm_parse_brand_behavior_witness :
    jvmParseBrand (chars "java")
        (some (chars "Java(TM) SE Runtime Environment (build 1.7.0_55-b13)"))
        (chars "javac 1.7.0_55") detectVersionModel =
      .ok (javaRuntimeBrand
        (some (chars "Java(TM) SE Runtime Environment (build 1.7.0_55-b13)")),
        detectVersionModel (chars "javac 1.7.0_55")) ∧
    javaRuntimeBrand
        (some (chars "Java(TM) SE Runtime Environment (build 1.7.0_55-b13)"))
      = chars "oracle" ∧
    javaRuntimeBrand
        (some (chars "OpenJDK Runtime Environment (build 1.8.0_151)")) =
      chars "openjdk" ∧
    javaRuntimeBrand (some (chars "unknown")) = chars "unknown" ∧
    jvmParseBrand (chars "java") (some (chars "unknown"))
        (chars "javac 1.7.0_55") detectVersionModel =
      .ok (chars "unknown", some [1, 7, 0]) ∧
    jvmParseBrand (chars "scala") none
        (chars "Scala code runner version 2.11.6 -- Copyright 2002-2013, LAMP/EPFL")
        detectVersionModel = .ok (chars "epfl", some [2, 11, 6]) := by
  refine ⟨jvm_parse_brand_behavior.1 _ _ _,
    jvm_parse_brand_behavior.2.2.1 _ (by rfl),
    jvm_parse_brand_behavior.2.2.2.1 _ (by rfl) (by rfl),
    jvm_parse_brand_behavior.2.2.2.2.1 _ (by rfl) (by rfl), ?_, ?_⟩
  · have h := jvm_parse_brand_behavior.1 (some (chars "unknown"))
      (chars "javac 1.7.0_55") detectVersionModel
    rw [h]
    rfl
  · have h := jvm_parse_brand_behavior.2.2.2.2.2.1 none
      (chars "Scala code runner version 2.11.6 -- Copyright 2002-2013, LAMP/EPFL")
      detectVersionModel (by rfl)
    rw [h]
    rfl

end Bfg

namespace Bfg

/-- A header directory as carried by `opts.include_dir`: its path and its
"system header" marking. -/
structure HeaderDir where
  path : BPath
  system : Bool
deriving DecidableEq

/-- The warning levels of the Option Model (`opts.WarningValue`). -/
inductive WarnV where
  | disable
  | all
  | extra
  | error
deriving DecidableEq

/-- The Python enum member name (`j.name`). -/
def warnName : WarnV → Str
  | .disable => chars "disable"
  | .all => chars "all"
  | .extra => chars "extra"
  | .error => chars "error"

/-- The optimization levels of the Option Model (`opts.OptimizeValue`). -/
inductive OptV where
  | disable
  | size
  | speed
  | linktime
deriving DecidableEq

/-- When an rpath entry applies (`opts.RpathWhen` flag set). -/
structure RpathWhen where
  uninstalled : Bool
  installed : Bool
deriving DecidableEq

/-- Modelled from the spec: the closed Option Model (§2 "Option Model",
§3 "Option"); `bfg9000/options.py` is not among the analyzed sources.  Each
constructor carries exactly the fields the translators in `cc.py`,
`msvc.py` and `jvm.py` consume. -/
inductive Opt where
  | includeDir (directory : HeaderDir)
  | define (name : Str) (value : Option Str)
  | std (value : Str)
  | warning (value : List WarnV)
  | debug
  | static
  | optimize (value : List OptV)
  | pthread
  | pic
  | pch (headerPath : BPath) (headerName : Str)
  | sanitize
  | lib (library : LinkedLib)
  | libDir (directory : BPath)
  | libLiteral (value : Str)
  | rpathDir (path : BPath) (whenW : RpathWhen)
  | rpathLinkDir (path : BPath)
  | moduleDef (path : BPath)
  | entryPoint (value : Str)
  | installNameChange (old : Str) (newName : Str)
  | stringy (value : Str)

/-- The Python class name of an option kind, standing in for
`'{!r}'.format(type(i))` in the "unknown option type" error message. -/
def kindName : Opt → Str
  | .includeDir _ => chars "include_dir"
  | .define _ _ => chars "define"
  | .std _ => chars "std"
  | .warning _ => chars "warning"
  | .debug => chars "debug"
  | .static => chars "static"
  | .optimize _ => chars "optimize"
  | .pthread => chars "pthread"
  | .pic => chars "pic"
  | .pch _ _ => chars "pch"
  | .sanitize => chars "sanitize"
  | .lib _ => chars "lib"
  | .libDir _ => chars "lib_dir"
  | .libLiteral _ => chars "lib_literal"
  | .rpathDir _ _ => chars "rpath_dir"
  | .rpathLinkDir _ => chars "rpath_link_dir"
  | .moduleDef _ => chars "module_def"
  | .entryPoint _ => chars "entry_point"
  | .installNameChange _ _ => chars "install_name_change"
  | .stringy _ => chars "str"

/-- The "unknown option type" `TypeError` every translator raises on an
unrecognized option kind. -/
def unknownOptErr (o : Opt) : PyErr :=
  .typeError (chars "unknown option type " ++ kindName o)

/-- The flag-syntax mode every translator takes (`mode='normal'` or
`mode='pkg-config'`). -/
inductive Mode where
  | normal
  | pkgConfig
deriving DecidableEq

/-- Modelled from the spec: `iterutils.uniques` (`iterutils.py` is not among
the analyzed sources) deduplicates a list preserving first-seen order (§3
"Invariants": "directory lists ... are deduplicated while preserving
first-seen order"). -/
def uniquesAux {α : Type} [DecidableEq α] (seen : List α) : List α → List α
  | [] => []
  | x :: xs =>
    if x ∈ seen then uniquesAux seen xs
    else x :: uniquesAux (seen ++ [x]) xs

/-- First-seen-order deduplication. -/
def uniques {α : Type} [DecidableEq α] (l : List α) : List α := uniquesAux [] l

/-- The generic per-option translation loop shared by every `flags`
implementation: translate each option in order (raising on the first failing
one) and combine the per-option contributions.  `combine` is list/flag
accumulation appending in iteration order. -/
def foldTranslate {σ τ : Type} (step : Opt → Except PyErr σ)
    (combine : σ → τ → τ) (init : τ) : List Opt → Except PyErr τ
  | [] => .ok init
  | o :: rest => do
    let c ← step o
    let m ← foldTranslate step combine init rest
    .ok (combine c m)

/-- The `_optimize_flags` table of cc.py. -/
def ccOptimizeFlag : OptV → Str
  | .disable => chars "-O0"
  | .size => chars "-Osize"
  | .speed => chars "-O3"
  | .linktime => chars "-flto"

/-- cc warning translation: `-w` for disable, `-W<name>` otherwise. -/
def ccWarnFlag : WarnV → Str
  | .disable => chars "-w"
  | w => chars "-W" ++ warnName w

/-- `CcBaseCompiler._include_dir`: `-isystem` only for system directories
that are not among the host platform's default include directories. -/
def ccIncludeDir (hostIncludeDirs : List BPath) (d : HeaderDir) : List Tok :=
  if d.system = true ∧ ¬ d.path ∈ hostIncludeDirs then
    [[.s (chars "-isystem")], [.p d.path]]
  else [[.s (chars "-I"), .p d.path]]

/-- The root part of `posixpath.splitext`: the extension starts at the last
dot, provided it comes after the last slash and the basename has a non-dot
character before it (leading dots of a basename never start an
extension). -/
def psplitextRoot (s : Str) : Str :=
  let r := s.reverse
  let afterDot := r.takeWhile (fun c => !(c = '.'))
  if afterDot.length = r.length then s
  else if afterDot.any (· = '/') then s
  else
    let beforeDot := s.take (s.length - afterDot.length - 1)
    let fnamePart := (beforeDot.reverse.takeWhile (fun c => !(c = '/'))).reverse
    if fnamePart.all (· = '.') then s
    else beforeDot

/-- `BasePath.stripext` with no replacement. -/
def BPath.stripext (p : BPath) : Except PyErr BPath :=
  mkPathD (psplitextRoot p.suffix) p.root p.destdir

/-- One iteration of the option loop of `CcBaseCompiler.flags` (cc.py lines
224-261). -/
def ccCompStep (hostIncludeDirs : List BPath) (o : Opt) :
    Except PyErr (List Tok) :=
  match o with
  | .includeDir d => .ok (ccIncludeDir hostIncludeDirs d)
  | .define n v =>
    .ok [[.s (match v with
      | some vv => chars "-D" ++ n ++ '=' :: vv
      | none => chars "-D" ++ n)]]
  | .std v => .ok [[.s (chars "-std=" ++ v)]]
  | .warning ws => .ok (ws.map (fun w => [SPiece.s (ccWarnFlag w)]))
  | .debug => .ok [[.s (chars "-g")]]
  | .static => .ok []
  | .optimize vs => .ok (vs.map (fun v => [SPiece.s (ccOptimizeFlag v)]))
  | .pthread => .ok [[.s (chars "-pthread")]]
  | .pic => .ok [[.s (chars "-fPIC")]]
  | .pch hp _ => do
    let sp ← hp.stripext
    .ok [[.s (chars "-include")], [.p sp]]
  | .sanitize => .ok [[.s (chars "-fsanitize=address")]]
  | .stringy v => .ok [[.s v]]
  | _ => .error (unknownOptErr o)

/-- `CcBaseCompiler.flags` (the `output`/`mode` parameters are unused by the
cc compiler translator). -/
def ccCompilerFlags (hostIncludeDirs : List BPath) (options : List Opt) :
    Except PyErr (List Tok) :=
  foldTranslate (ccCompStep hostIncludeDirs) (· ++ ·) [] options

end Bfg

namespace Bfg

/-- The `_warning_flags` table of msvc.py. -/
def msvcWarnFlag : WarnV → Str
  | .disable => chars "/w"
  | .all => chars "/W3"
  | .extra => chars "/W4"
  | .error => chars "/WX"

/-- The `_optimize_flags` table of msvc.py. -/
def msvcOptimizeFlag : OptV → Str
  | .disable => chars "/Od"
  | .size => chars "/O1"
  | .speed => chars "/O2"
  | .linktime => chars "/GL"

/-- One iteration of the option loop of `MsvcBaseCompiler.flags` (msvc.py
lines 158-197): flag tokens plus whether a `debug` / `static` option was
seen (they select the trailing `/M…` runtime flag). -/
def msvcCompStep (mode : Mode) (o : Opt) :
    Except PyErr (List Tok × Bool × Bool) :=
  match o with
  | .includeDir d =>
    .ok ([[.s (if mode = .pkgConfig then chars "-I" else chars "/I"),
          .p d.path]], false, false)
  | .define n v =>
    .ok ([[.s ((if mode = .pkgConfig then chars "-D" else chars "/D") ++
      (match v with
       | some vv => n ++ '=' :: vv
       | none => n))]], false, false)
  | .std v => .ok ([[.s (chars "/std:" ++ v)]], false, false)
  | .warning ws =>
    .ok (ws.map (fun w => [SPiece.s (msvcWarnFlag w)]), false, false)
  | .debug => .ok ([[.s (chars "/Zi")]], true, false)
  | .static => .ok ([], false, true)
  | .optimize vs =>
    .ok (vs.map (fun v => [SPiece.s (msvcOptimizeFlag v)]), false, false)
  | .pch _ hn => .ok ([[.s (chars "/Yu" ++ hn)]], false, false)
  | .sanitize => .ok ([[.s (chars "/RTC1")]], false, false)
  | .stringy v => .ok ([[.s v]], false, false)
  | _ => .error (unknownOptErr o)

/-- `MsvcBaseCompiler.flags`: the option loop followed by the `/M…` runtime
selection flag when `debug` or `static` was seen outside pkg-config mode. -/
def msvcCompilerFlags (mode : Mode) (options : List Opt) :
    Except PyErr (List Tok) := do
  let r ← foldTranslate (msvcCompStep mode)
    (fun c m => (c.1 ++ m.1, c.2.1 || m.2.1, c.2.2 || m.2.2))
    ([], false, false) options
  if mode ≠ .pkgConfig ∧ (r.2.2 = true ∨ r.2.1 = true) then
    .ok (r.1 ++ [[.s (chars "/M" ++
      (if r.2.2 then chars "T" else chars "D") ++
      (if r.2.1 then chars "d" else []))]])
  else .ok r.1

/-- Builder-level context a cc linker's flag translation depends on. -/
structure CcLinkCtx where
  objectFormat : Str
  tp : TargetPlatform
  rawLinker : Option LdInfo
  lang : Str

/-- `CcLinker._lib_dir` (cc.py lines 541-560). -/
def ccLinkLibDir (ctx : CcLinkCtx) (library : LinkedLib) (rawLink : Bool) :
    Except PyErr (List BPath) :=
  match library with
  | .framework _ => .ok []
  | .strName _ => .ok []
  | .staticLib p =>
    if rawLink then .ok [] else do
      let pp ← p.parent
      .ok [pp]
  | .wholeArchive p =>
    if rawLink then .ok [] else do
      let pp ← p.parent
      .ok [pp]
  | .sharedLib p _ creator =>
    if rawLink ∧ creator = true then .ok [] else do
      let pp ← p.parent
      .ok [pp]
  | .genericLib p _ =>
    match ccLibReMatch ctx.tp.hasImportLibrary ctx.tp.sharedLibraryExt
        p.basename with
    | some _ => do
      let pp ← p.parent
      .ok [pp]
    | none =>
      if rawLink then .ok []
      else .error (.valueError
        (quoted p.basename ++ chars " is not a valid library name"))

/-- One iteration of the option loop of `CcLinker.flags` (cc.py lines
566-606): flag tokens plus the rpath, rpath-link and `-L` directory
accumulators. -/
def ccLinkStep (ctx : CcLinkCtx) (output : Option OutputBin) (mode : Mode)
    (o : Opt) :
    Except PyErr (List Tok × List SPiece × List BPath × List BPath) :=
  match o with
  | .libDir d => .ok ([], [], [], [d])
  | .lib l => do
    let dirs ← ccLinkLibDir ctx l (mode ≠ .pkgConfig)
    if mode ≠ .pkgConfig then do
      let rr ← localRpath ctx.objectFormat ctx.rawLinker l output
      .ok ([], rr.1, rr.2, dirs)
    else .ok ([], [], [], dirs)
  | .rpathDir p w =>
    if mode ≠ .pkgConfig ∧ w.uninstalled = true then
      .ok ([], [SPiece.p p], [], [])
    else .ok ([], [], [], [])
  | .rpathLinkDir p =>
    if mode ≠ .pkgConfig then .ok ([], [], [p], [])
    else .ok ([], [], [], [])
  | .moduleDef p =>
    if ctx.tp.hasImportLibrary then .ok ([[.p p]], [], [], [])
    else .ok ([], [], [], [])
  | .debug => .ok ([[.s (chars "-g")]], [], [], [])
  | .static => .ok ([[.s (chars "-static")]], [], [], [])
  | .optimize vs =>
    .ok (vs.map (fun v => [SPiece.s (ccOptimizeFlag v)]), [], [], [])
  | .pthread =>
    if ctx.tp.genus ≠ chars "darwin" then
      .ok ([[.s (chars "-pthread")]], [], [], [])
    else .ok ([], [], [], [])
  | .entryPoint v =>
    if ctx.lang ≠ chars "java" then
      .error (.valueError (chars "entry point only applies to java"))
    else .ok ([[.s (chars "--main=" ++ v)]], [], [], [])
  | .stringy v => .ok ([[.s v]], [], [], [])
  | .installNameChange _ _ => .ok ([], [], [], [])
  | .libLiteral _ => .ok ([], [], [], [])
  | _ => .error (unknownOptErr o)

/-- The option loop of `CcLinker.flags`. -/
def ccLinkFlagsGo (ctx : CcLinkCtx) (output : Option OutputBin) (mode : Mode)
    (options : List Opt) :
    Except PyErr (List Tok × List SPiece × List BPath × List BPath) :=
  foldTranslate (ccLinkStep ctx output mode)
    (fun c m => (c.1 ++ m.1, c.2.1 ++ m.2.1, c.2.2.1 ++ m.2.2.1,
      c.2.2.2 ++ m.2.2.2))
    ([], [], [], []) options

/-- `CcLinker.flags` (cc.py lines 562-613): the option loop followed by the
deduplicated `-L` flags, the single joined `-Wl,-rpath,` flag and the single
joined `-Wl,-rpath-link,` flag. -/
def ccLinkerFlags (ctx : CcLinkCtx) (options : List Opt)
    (output : Option OutputBin) (mode : Mode) : Except PyErr (List Tok) := do
  let r ← ccLinkFlagsGo ctx output mode options
  let fl := r.1 ++ (uniques r.2.2.2).map (fun d => [SPiece.s (chars "-L"),
    SPiece.p d])
  let fl := if r.2.1 ≠ [] then
      fl ++ [SPiece.s (chars "-Wl,-rpath,") ::
        r.2.1.intersperse (SPiece.s (chars ":"))]
    else fl
  let fl := if r.2.2.1 ≠ [] then
      fl ++ [SPiece.s (chars "-Wl,-rpath-link,") ::
        (r.2.2.1.map SPiece.p).intersperse (SPiece.s (chars ":"))]
    else fl
  .ok fl

end Bfg

namespace Bfg

/-- `MsvcLinker._lib_dir` (msvc.py lines 378-381): in `cc` syntax, the parent
directory of every non-whole-archive library; nothing otherwise.  Accessing
`library.path` on a value with no path attribute is a Python
`AttributeError`, modelled as a `TypeError`-style failure. -/
def msvcLinkLibDir (library : LinkedLib) (ccSyntax : Bool) :
    Except PyErr (List BPath) :=
  if ccSyntax = true ∧ ¬ (library matches .wholeArchive _) then
    match library.path? with
    | some p => do
      let pp ← p.parent
      .ok [pp]
    | none => .error (.typeError (chars "object has no attribute path"))
  else .ok []

/-- One iteration of the option loop of `MsvcLinker.flags` (msvc.py lines
383-405): flag tokens plus the `/LIBPATH:` directory accumulator. -/
def msvcLinkStep (mode : Mode) (o : Opt) :
    Except PyErr (List Tok × List BPath) :=
  match o with
  | .libDir d => .ok ([], [d])
  | .lib l => do
    let dirs ← msvcLinkLibDir l (mode = .pkgConfig)
    .ok ([], dirs)
  | .moduleDef p => .ok ([[.s (chars "/DEF:"), .p p]], [])
  | .debug => .ok ([[.s (chars "/DEBUG")]], [])
  | .static => .ok ([], [])
  | .optimize vs =>
    .ok (if OptV.linktime ∈ vs then [[.s (chars "/LTCG")]] else [], [])
  | .stringy v => .ok ([[.s v]], [])
  | .libLiteral _ => .ok ([], [])
  | _ => .error (unknownOptErr o)

/-- `MsvcLinker.flags`: the option loop followed by the deduplicated
`-L`/`/LIBPATH:` directory flags. -/
def msvcLinkerFlags (mode : Mode) (options : List Opt) :
    Except PyErr (List Tok) := do
  let r ← foldTranslate (msvcLinkStep mode)
    (fun c m => (c.1 ++ m.1, c.2 ++ m.2)) ([], []) options
  .ok (r.1 ++ (uniques r.2).map (fun d =>
    [SPiece.s (if mode = .pkgConfig then chars "-L" else chars "/LIBPATH:"),
     SPiece.p d]))

/-- One iteration of the option loop of `MsvcStaticLinker.flags` (msvc.py
lines 511-518): only literal strings are recognized. -/
def msvcStaticStep (o : Opt) : Except PyErr (List Tok) :=
  match o with
  | .stringy v => .ok [[.s v]]
  | _ => .error (unknownOptErr o)

/-- `MsvcStaticLinker.flags`. -/
def msvcStaticFlags (options : List Opt) : Except PyErr (List Tok) :=
  foldTranslate msvcStaticStep (· ++ ·) [] options

/-- The `_warning_flags` tables of jvm.py; a combination with no entry (the
`KeyError` branch) raises the "unsupported warning level" `ValueError`. -/
def jvmWarnFlag (lang : Str) (w : WarnV) : Except PyErr Str :=
  if lang = chars "java" then
    match w with
    | .disable => .ok (chars "-nowarn")
    | .error => .ok (chars "-Werror")
    | .all => .ok (chars "-Xlint:all")
    | .extra => .error (.valueError
        (chars "unsupported warning level " ++ quoted (warnName w)))
  else if lang = chars "scala" then
    match w with
    | .disable => .ok (chars "-nowarn")
    | .error => .ok (chars "-Xfatal-errors")
    | .all => .ok (chars "-Xlint:_")
    | .extra => .error (.valueError
        (chars "unsupported warning level " ++ quoted (warnName w)))
  else .error (.valueError
    (chars "unsupported warning level " ++ quoted (warnName w)))

/-- One iteration of the option loop of `JvmCompiler.flags` (jvm.py lines
148-175): flag tokens plus the class-path accumulator. -/
def jvmCompStep (lang : Str) (o : Opt) :
    Except PyErr (List Tok × List BPath) :=
  match o with
  | .lib l =>
    match l.path? with
    | some p => .ok ([], [p])
    | none => .error (.typeError (chars "object has no attribute path"))
  | .warning ws => do
    let fl ← ws.mapM (jvmWarnFlag lang)
    .ok (fl.map (fun f => [SPiece.s f]), [])
  | .debug =>
    .ok ([[.s (if lang = chars "java" then chars "-g" else chars "-g:vars")]],
      [])
  | .optimize vs =>
    .ok (if lang = chars "scala" ∧ (OptV.size ∈ vs ∨ OptV.speed ∈ vs) then
        [[.s (chars "-optimize")]]
      else [], [])
  | .stringy v => .ok ([[.s v]], [])
  | _ => .error (unknownOptErr o)

/-- `JvmCompiler.flags`: the option loop followed by the single `-cp` flag
joining the deduplicated class path with `os.pathsep` (`:` on POSIX). -/
def jvmCompilerFlags (lang : Str) (options : List Opt) :
    Except PyErr (List Tok) := do
  let r ← foldTranslate (jvmCompStep lang)
    (fun c m => (c.1 ++ m.1, c.2 ++ m.2)) ([], []) options
  if r.2 ≠ [] then
    .ok (r.1 ++ [[.s (chars "-cp")],
      ((uniques r.2).map SPiece.p).intersperse (SPiece.s (chars ":"))])
  else .ok r.1

/-- One iteration of the option loop of `JarMaker.flags` (jvm.py lines
236-247): literal strings pass through, `debug` and `optimize` are
explicitly ignored. -/
def jarStep (o : Opt) : Except PyErr (List Tok) :=
  match o with
  | .stringy v => .ok [[.s v]]
  | .debug => .ok []
  | .optimize _ => .ok []
  | _ => .error (unknownOptErr o)

/-- `JarMaker.flags`. -/
def jarFlags (options : List Opt) : Except PyErr (List Tok) :=
  foldTranslate jarStep (· ++ ·) [] options

end Bfg

namespace Bfg

/-- The option kinds `CcBaseCompiler.flags` recognizes. -/
def ccCompRecog : Opt → Bool
  | .includeDir _ => true
  | .define _ _ => true
  | .std _ => true
  | .warning _ => true
  | .debug => true
  | .static => true
  | .optimize _ => true
  | .pthread => true
  | .pic => true
  | .pch _ _ => true
  | .sanitize => true
  | .stringy _ => true
  | _ => false

/-- The option kinds `CcLinker.flags` recognizes. -/
def ccLinkRecog : Opt → Bool
  | .libDir _ => true
  | .lib _ => true
  | .rpathDir _ _ => true
  | .rpathLinkDir _ => true
  | .moduleDef _ => true
  | .debug => true
  | .static => true
  | .optimize _ => true
  | .pthread => true
  | .entryPoint _ => true
  | .stringy _ => true
  | .installNameChange _ _ => true
  | .libLiteral _ => true
  | _ => false

/-- The option kinds `MsvcBaseCompiler.flags` recognizes. -/
def msvcCompRecog : Opt → Bool
  | .includeDir _ => true
  | .define _ _ => true
  | .std _ => true
  | .warning _ => true
  | .debug => true
  | .static => true
  | .optimize _ => true
  | .pch _ _ => true
  | .sanitize => true
  | .stringy _ => true
  | _ => false

/-- The option kinds `MsvcLinker.flags` recognizes. -/
def msvcLinkRecog : Opt → Bool
  | .libDir _ => true
  | .lib _ => true
  | .moduleDef _ => true
  | .debug => true
  | .static => true
  | .optimize _ => true
  | .stringy _ => true
  | .libLiteral _ => true
  | _ => false

/-- The option kinds `MsvcStaticLinker.flags` recognizes. -/
def msvcStaticRecog : Opt → Bool
  | .stringy _ => true
  | _ => false

/-- The option kinds `JvmCompiler.flags` recognizes. -/
def jvmCompRecog : Opt → Bool
  | .lib _ => true
  | .warning _ => true
  | .debug => true
  | .optimize _ => true
  | .stringy _ => true
  | _ => false

/-- The option kinds `JarMaker.flags` recognizes. -/
def jarRecog : Opt → Bool
  | .stringy _ => true
  | .debug => true
  | .optimize _ => true
  | _ => false

/-- A flag translator never silently ignores an unrecognized option kind:
a successful translation implies every option was of a recognized kind, and
inserting an option of an unrecognized kind into any successfully translated
prefix makes the translator raise the `TypeError` naming that kind. -/
def RejectsUnknown {τ : Type} (recog : Opt → Bool)
    (translate : List Opt → Except PyErr τ) : Prop :=
  (∀ (opts : List Opt) (v : τ), translate opts = .ok v →
    ∀ o ∈ opts, recog o = true) ∧
  (∀ (os₁ : List Opt) (o : Opt) (os₂ : List Opt) (v : τ),
    translate os₁ = .ok v → recog o = false →
    translate (os₁ ++ o :: os₂) = .error (unknownOptErr o))

theorem foldTranslate_ok_step {σ τ : Type} (step : Opt → Except PyErr σ)
    (comb : σ → τ → τ) (init : τ) :
    ∀ (opts : List Opt) (v : τ),
      foldTranslate step comb init opts = .ok v →
      ∀ o ∈ opts, ∃ c, step o = .ok c := by
  intro opts
  induction opts with
  | nil => intro v h o ho; simp at ho
  | cons a rest ih =>
    intro v h o ho
    cases hs : step a with
    | error e =>
      simp only [foldTranslate, hs, exc_bind_err] at h
      exact Except.noConfusion h
    | ok c =>
      cases hm : foldTranslate step comb init rest with
      | error e =>
        simp only [foldTranslate, hs, hm, exc_bind_ok, exc_bind_err] at h
        exact Except.noConfusion h
      | ok m =>
        rcases List.mem_cons.mp ho with rfl | ho2
        · exact ⟨c, hs⟩
        · exact ih m hm o ho2

theorem foldTranslate_append_error {σ τ : Type} (step : Opt → Except PyErr σ)
    (comb : σ → τ → τ) (init : τ) (os₁ : List Opt) (o : Opt) (os₂ : List Opt)
    (e : PyErr) :
    ∀ (v : τ), foldTranslate step comb init os₁ = .ok v →
    step o = .error e →
    foldTranslate step comb init (os₁ ++ o :: os₂) = .error e := by
  induction os₁ with
  | nil =>
    intro v h he
    simp only [List.nil_append, foldTranslate, he, exc_bind_err]
  | cons a rest ih =>
    intro v h he
    cases hs : step a with
    | error e2 =>
      simp only [foldTranslate, hs, exc_bind_err] at h
      exact Except.noConfusion h
    | ok c =>
      cases hm : foldTranslate step comb init rest with
      | error e2 =>
        simp only [foldTranslate, hs, hm, exc_bind_ok, exc_bind_err] at h
        exact Except.noConfusion h
      | ok m =>
        simp only [List.cons_append, foldTranslate, hs, exc_bind_ok,
          List.append_eq]
        rw [ih m hm he]
        simp only [exc_bind_err]

theorem rejectsUnknown_fold {σ τ : Type} (step : Opt → Except PyErr σ)
    (comb : σ → τ → τ) (init : τ) (recog : Opt → Bool)
    (hstep : ∀ o, recog o = false → step o = .error (unknownOptErr o)) :
    RejectsUnknown recog (foldTranslate step comb init) := by
  constructor
  · intro opts v h o ho
    obtain ⟨c, hc⟩ := foldTranslate_ok_step step comb init opts v h o ho
    by_contra hrec
    have hfalse : recog o = false := by simpa using hrec
    rw [hstep o hfalse] at hc
    exact Except.noConfusion hc
  · intro os₁ o os₂ v h hrec
    exact foldTranslate_append_error step comb init os₁ o os₂ _ v h
      (hstep o hrec)

theorem rejectsUnknown_fold_bind {σ τ ρ : Type} (step : Opt → Except PyErr σ)
    (comb : σ → τ → τ) (init : τ) (k : τ → Except PyErr ρ)
    (recog : Opt → Bool)
    (hstep : ∀ o, recog o = false → step o = .error (unknownOptErr o))
    (hk : ∀ r, ∃ v, k r = .ok v) :
    RejectsUnknown recog
      (fun opts => foldTranslate step comb init opts >>= k) := by
  constructor
  · intro opts v h o ho
    have h2 : foldTranslate step comb init opts >>= k = .ok v := h
    cases hf : foldTranslate step comb init opts with
    | error e =>
      rw [hf] at h2
      simp only [exc_bind_err] at h2
      exact absurd h2 (fun hx => Except.noConfusion hx)
    | ok r =>
      obtain ⟨c, hc⟩ := foldTranslate_ok_step step comb init opts r hf o ho
      by_contra hrec
      have hfalse : recog o = false := by simpa using hrec
      rw [hstep o hfalse] at hc
      exact Except.noConfusion hc
  · intro os₁ o os₂ v h hrec
    have h2 : foldTranslate step comb init os₁ >>= k = .ok v := h
    show foldTranslate step comb init (os₁ ++ o :: os₂) >>= k =
      .error (unknownOptErr o)
    cases hf : foldTranslate step comb init os₁ with
    | error e =>
      rw [hf] at h2
      simp only [exc_bind_err] at h2
      exact absurd h2 (fun hx => Except.noConfusion hx)
    | ok r =>
      have hap := foldTranslate_append_error step comb init os₁ o os₂
        (unknownOptErr o) r hf (hstep o hrec)
      rw [hap]
      simp only [exc_bind_err]

end Bfg

namespace Bfg

theorem ccCompStep_unrecog (host : List BPath) (o : Opt)
    (h : ccCompRecog o = false) : ccCompStep host o = .error (unknownOptErr o) := by
  cases o <;> simp_all [ccCompStep, ccCompRecog]

theorem ccLinkStep_unrecog (ctx : CcLinkCtx) (output : Option OutputBin)
    (mode : Mode) (o : Opt) (h : ccLinkRecog o = false) :
    ccLinkStep ctx output mode o = .error (unknownOptErr o) := by
  cases o <;> simp_all [ccLinkStep, ccLinkRecog]

theorem msvcCompStep_unrecog (mode : Mode) (o : Opt)
    (h : msvcCompRecog o = false) :
    msvcCompStep mode o = .error (unknownOptErr o) := by
  cases o <;> simp_all [msvcCompStep, msvcCompRecog]

theorem msvcLinkStep_unrecog (mode : Mode) (o : Opt)
    (h : msvcLinkRecog o = false) :
    msvcLinkStep mode o = .error (unknownOptErr o) := by
  cases o <;> simp_all [msvcLinkStep, msvcLinkRecog]

theorem msvcStaticStep_unrecog (o : Opt) (h : msvcStaticRecog o = false) :
    msvcStaticStep o = .error (unknownOptErr o) := by
  cases o <;> simp_all [msvcStaticStep, msvcStaticRecog]

theorem jvmCompStep_unrecog (lang : Str) (o : Opt)
    (h : jvmCompRecog o = false) :
    jvmCompStep lang o = .error (unknownOptErr o) := by
  cases o <;> simp_all [jvmCompStep, jvmCompRecog]

theorem jarStep_unrecog (o : Opt) (h : jarRecog o = false) :
    jarStep o = .error (unknownOptErr o) := by
  cases o <;> simp_all [jarStep, jarRecog]

/-- C6: every flag translator of every family (the cc compiler and linker,
the msvc compiler, linker and static linker, the jvm compiler and the jar
maker) fails with the `TypeError` naming the unrecognized option kind when
the option list contains a kind it does not recognize; a translation only
succeeds when every option kind was recognized. -/
theorem flag_translators_reject_unknown_option_kinds :
    (∀ hostIncludeDirs,
      RejectsUnknown ccCompRecog (ccCompilerFlags hostIncludeDirs)) ∧
    (∀ ctx output mode, RejectsUnknown ccLinkRecog
      (fun opts => ccLinkerFlags ctx opts output mode)) ∧
    (∀ mode, RejectsUnknown msvcCompRecog (msvcCompilerFlags mode)) ∧
    (∀ mode, RejectsUnknown msvcLinkRecog (msvcLinkerFlags mode)) ∧
    RejectsUnknown msvcStaticRecog msvcStaticFlags ∧
    (∀ lang, RejectsUnknown jvmCompRecog (jvmCompilerFlags lang)) ∧
    RejectsUnknown jarRecog jarFlags := by
  refine ⟨?_, ?_, ?_, ?_, ?_, ?_, ?_⟩
  · intro host
    exact rejectsUnknown_fold (ccCompStep host) (· ++ ·) [] ccCompRecog
      (ccCompStep_unrecog host)
  · intro ctx output mode
    have h := rejectsUnknown_fold_bind (ccLinkStep ctx output mode)
      (fun c m => (c.1 ++ m.1, c.2.1 ++ m.2.1, c.2.2.1 ++ m.2.2.1,
        c.2.2.2 ++ m.2.2.2))
      ([], [], [], [])
      (fun r =>
        let fl := r.1 ++ (uniques r.2.2.2).map (fun d =>
          [SPiece.s (chars "-L"), SPiece.p d])
        let fl := if r.2.1 ≠ [] then
            fl ++ [SPiece.s (chars "-Wl,-rpath,") ::
              r.2.1.intersperse (SPiece.s (chars ":"))]
          else fl
        let fl := if r.2.2.1 ≠ [] then
            fl ++ [SPiece.s (chars "-Wl,-rpath-link,") ::
              (r.2.2.1.map SPiece.p).intersperse (SPiece.s (chars ":"))]
          else fl
        Except.ok fl)
      ccLinkRecog (ccLinkStep_unrecog ctx output mode)
      (fun r => ⟨_, rfl⟩)
    exact h
  · intro mode
    have h := rejectsUnknown_fold_bind (msvcCompStep mode)
      (fun c m => (c.1 ++ m.1, c.2.1 || m.2.1, c.2.2 || m.2.2))
      ([], false, false)
      (fun r =>
        if mode ≠ .pkgConfig ∧ (r.2.2 = true ∨ r.2.1 = true) then
          Except.ok (r.1 ++ [[SPiece.s (chars "/M" ++
            (if r.2.2 then chars "T" else chars "D") ++
            (if r.2.1 then chars "d" else []))]])
        else Except.ok r.1)
      msvcCompRecog (msvcCompStep_unrecog mode)
      (fun r => by dsimp only; split <;> exact ⟨_, rfl⟩)
    exact h
  · intro mode
    have h := rejectsUnknown_fold_bind (msvcLinkStep mode)
      (fun c m => (c.1 ++ m.1, c.2 ++ m.2)) ([], [])
      (fun r => Except.ok (r.1 ++ (uniques r.2).map (fun d =>
        [SPiece.s (if mode = .pkgConfig then chars "-L"
          else chars "/LIBPATH:"), SPiece.p d])))
      msvcLinkRecog (msvcLinkStep_unrecog mode)
      (fun r => ⟨_, rfl⟩)
    exact h
  · exact rejectsUnknown_fold msvcStaticStep (· ++ ·) [] msvcStaticRecog
      msvcStaticStep_unrecog
  · intro lang
    have h := rejectsUnknown_fold_bind (jvmCompStep lang)
      (fun c m => (c.1 ++ m.1, c.2 ++ m.2)) ([], [])
      (fun r =>
        if r.2 ≠ [] then
          Except.ok (r.1 ++ [[SPiece.s (chars "-cp")],
            ((uniques r.2).map SPiece.p).intersperse
              (SPiece.s (chars ":"))])
        else Except.ok r.1)
      jvmCompRecog (jvmCompStep_unrecog lang)
      (fun r => by dsimp only; split <;> exact ⟨_, rfl⟩)
    exact h
  · exact rejectsUnknown_fold jarStep (· ++ ·) [] jarRecog jarStep_unrecog

end Bfg

namespace Bfg

/-- Witness for C6: each translator, fed one option of a kind it does not
recognize, raises the `TypeError` naming that kind. -/
theorem flag_translators_reject_unknown_option_kinds_witness :
    ccCompilerFlags [] [Opt.lib (.strName (chars "m"))] =
      .error (unknownOptErr (Opt.lib (.strName (chars "m")))) ∧
    ccLinkerFlags
        { objectFormat := chars "elf", tp := linuxPlatform, rawLinker := none,
          lang := chars "c++" }
        [Opt.pic] none .normal = .error (unknownOptErr Opt.pic) ∧
    msvcCompilerFlags .normal [Opt.pthread] =
      .error (unknownOptErr Opt.pthread) ∧
    msvcLinkerFlags .normal [Opt.pic] = .error (unknownOptErr Opt.pic) ∧
    msvcStaticFlags [Opt.debug] = .error (unknownOptErr Opt.debug) ∧
    jvmCompilerFlags (chars "java") [Opt.pic] =
      .error (unknownOptErr Opt.pic) ∧
    jarFlags [Opt.lib (.strName (chars "m"))] =
      .error (unknownOptErr (Opt.lib (.strName (chars "m")))) :=
  ⟨(flag_translators_reject_unknown_option_kinds.1 []).2 [] _ [] [] rfl rfl,
   (flag_translators_reject_unknown_option_kinds.2.1
     { objectFormat := chars "elf", tp := linuxPlatform, rawLinker := none,
       lang := chars "c++" } none .normal).2 [] _ [] [] rfl rfl,
   (flag_translators_reject_unknown_option_kinds.2.2.1 .normal).2 [] _ [] []
     rfl rfl,
   (flag_translators_reject_unknown_option_kinds.2.2.2.1 .normal).2 [] _ [] []
     rfl rfl,
   flag_translators_reject_unknown_option_kinds.2.2.2.2.1.2 [] _ [] [] rfl rfl,
   (flag_translators_reject_unknown_option_kinds.2.2.2.2.2.1
     (chars "java")).2 [] _ [] [] rfl rfl,
   flag_translators_reject_unknown_option_kinds.2.2.2.2.2.2.2 [] _ [] []
     rfl rfl⟩

end Bfg

namespace Bfg

/-- A post-install fixup command: `patchelf` with the installed rpath list on
ELF, `install_name_tool` with an optional new id and a list of reference
changes on Mach-O. -/
inductive PostInstallCmd where
  | patchelf (path : BPath) (rpath : List BPath)
  | installNameTool (path : BPath) (ident : Option BPath)
      (changes : List ((Str × Str) ⊕ (Str × BPath)))

/-- One iteration of the option loop of `CcLinker._installed_rpaths` (cc.py
lines 460-478): the installed rpath entries contributed by one option and
whether they differ from the build-time rpath (the `changed` flag).
`file_install_path` (`file_types.py`, not among the analyzed sources) is
abstracted as the `fip` parameter giving a library's absolute installed
location. -/
def installedRpathsStep (ctx : CcLinkCtx) (fip : LinkedLib → BPath)
    (output : Option OutputBin) (o : Opt) :
    Except PyErr (List BPath × Bool) :=
  match o with
  | .lib l =>
    if l.isLibrary = true ∧ (l.runtimeFile?).isSome = true then do
      let rr ← localRpath ctx.objectFormat ctx.rawLinker l output
      let localPiece ← (match rr.1 with
        | x :: _ => .ok x
        | [] => .error (.indexError (chars "list index out of range")))
      let installed ← (fip l).parent
      let changed := match localPiece with
        | .p bp => decide (bp ≠ installed)
        | .s _ => true
      .ok ([installed], changed)
    else .ok ([], false)
  | .rpathDir p w =>
    if w.installed = true then .ok ([p], !w.uninstalled)
    else .ok ([], false)
  | _ => .ok ([], false)

/-- `CcLinker._installed_rpaths`: accumulate entries in order; return the
deduplicated list only when some entry changed relative to build time. -/
def installedRpaths (ctx : CcLinkCtx) (fip : LinkedLib → BPath)
    (options : List Opt) (output : Option OutputBin) :
    Except PyErr (List BPath) := do
  let r ← foldTranslate (installedRpathsStep ctx fip output)
    (fun c m => (c.1 ++ m.1, c.2 || m.2)) ([], false) options
  .ok (if r.2 then uniques r.1 else [])

/-- `CcLinker.post_install` (cc.py lines 625-646): nothing unless the object
format is ELF or Mach-O; `patchelf` with the installed rpaths on ELF;
`install_name_tool` with the id (for libraries) and the reference changes on
Mach-O.  `file_install_path` and `darwin_install_name` are abstracted as the
`fip`/`fipOut`/`depName`/`depInstall` parameters. -/
def ccPostInstall (ctx : CcLinkCtx) (isLibrary : Bool)
    (fip : LinkedLib → BPath) (fipOut : BPath)
    (depName : RTFile → Str) (depInstall : RTFile → BPath)
    (options : List Opt) (output : OutputBin)
    (outputRuntimeDeps : List RTFile) :
    Except PyErr (Option PostInstallCmd) :=
  if ¬ (ctx.objectFormat = chars "elf" ∨ ctx.objectFormat = chars "mach-o")
  then .ok none
  else if ctx.objectFormat = chars "elf" then do
    let rpath ← installedRpaths ctx fip options (some output)
    .ok (some (.patchelf fipOut rpath))
  else
    .ok (some (.installNameTool fipOut
      (if isLibrary then some fipOut else none)
      ((options.filterMap (fun o => match o with
        | .installNameChange old newN => some (Sum.inl (old, newN))
        | _ => none)) ++
       outputRuntimeDeps.map (fun d => Sum.inr (depName d, depInstall d)))))

theorem localRpath_nonelf (fmt : Str) (raw : Option LdInfo) (l : LinkedLib)
    (out : Option OutputBin) (h : fmt ≠ chars "elf") :
    localRpath fmt raw l out = .ok ([], []) := by
  cases l with
  | sharedLib p rf c =>
    cases rf <;> simp [localRpath, LinkedLib.isLibrary,
      LinkedLib.runtimeFile?, h]
  | genericLib p rf =>
    cases rf <;> simp [localRpath, LinkedLib.isLibrary,
      LinkedLib.runtimeFile?, h]
  | staticLib p =>
    simp [localRpath, LinkedLib.isLibrary, LinkedLib.runtimeFile?]
  | wholeArchive p =>
    simp [localRpath, LinkedLib.isLibrary, LinkedLib.runtimeFile?]
  | framework n => simp [localRpath, LinkedLib.isLibrary]
  | strName n => simp [localRpath, LinkedLib.isLibrary]

end Bfg

namespace Bfg

theorem ccLinkStep_rp_empty (ctx : CcLinkCtx) (output : Option OutputBin)
    (mode : Mode) (o : Opt)
    (c : List Tok × List SPiece × List BPath × List BPath)
    (hfmt : ctx.objectFormat ≠ chars "elf")
    (hno : ∀ p w, o ≠ Opt.rpathDir p w)
    (hs : ccLinkStep ctx output mode o = .ok c) : c.2.1 = [] := by
  cases o with
  | rpathDir p w => exact absurd rfl (hno p w)
  | lib l =>
    simp only [ccLinkStep] at hs
    cases hd : ccLinkLibDir ctx l (mode ≠ Mode.pkgConfig) with
    | error e =>
      rw [hd] at hs
      simp only [exc_bind_err] at hs
      exact Except.noConfusion hs
    | ok dirs =>
      rw [hd] at hs
      simp only [exc_bind_ok] at hs
      rw [localRpath_nonelf ctx.objectFormat ctx.rawLinker l output hfmt]
        at hs
      simp only [exc_bind_ok] at hs
      split at hs <;> (injection hs with h; subst h; rfl)
  | rpathLinkDir p =>
    simp only [ccLinkStep] at hs
    split at hs <;> (injection hs with h; subst h; rfl)
  | moduleDef p =>
    simp only [ccLinkStep] at hs
    split at hs <;> (injection hs with h; subst h; rfl)
  | pthread =>
    simp only [ccLinkStep] at hs
    split at hs <;> (injection hs with h; subst h; rfl)
  | entryPoint v =>
    simp only [ccLinkStep] at hs
    split at hs
    · exact Except.noConfusion hs
    · injection hs with h; subst h; rfl
  | libDir d =>
    simp only [ccLinkStep] at hs
    injection hs with h; subst h; rfl
  | debug =>
    simp only [ccLinkStep] at hs
    injection hs with h; subst h; rfl
  | static =>
    simp only [ccLinkStep] at hs
    injection hs with h; subst h; rfl
  | optimize vs =>
    simp only [ccLinkStep] at hs
    injection hs with h; subst h; rfl
  | stringy v =>
    simp only [ccLinkStep] at hs
    injection hs with h; subst h; rfl
  | installNameChange a b =>
    simp only [ccLinkStep] at hs
    injection hs with h; subst h; rfl
  | libLiteral v =>
    simp only [ccLinkStep] at hs
    injection hs with h; subst h; rfl
  | includeDir d => simp [ccLinkStep] at hs
  | define n v => simp [ccLinkStep] at hs
  | std v => simp [ccLinkStep] at hs
  | warning ws => simp [ccLinkStep] at hs
  | pic => simp [ccLinkStep] at hs
  | pch a b => simp [ccLinkStep] at hs
  | sanitize => simp [ccLinkStep] at hs

end Bfg

namespace Bfg

theorem foldTranslate_invariant {σ τ : Type} (step : Opt → Except PyErr σ)
    (comb : σ → τ → τ) (init : τ) (Q : σ → Prop) (P : τ → Prop)
    (hinit : P init)
    (hcomb : ∀ c m, Q c → P m → P (comb c m)) :
    ∀ (opts : List Opt), (∀ o ∈ opts, ∀ c, step o = .ok c → Q c) →
    ∀ r, foldTranslate step comb init opts = .ok r → P r := by
  intro opts
  induction opts with
  | nil =>
    intro hq r h
    simp only [foldTranslate] at h
    injection h with h2
    subst h2
    exact hinit
  | cons a rest ih =>
    intro hq r h
    cases hs : step a with
    | error e =>
      simp only [foldTranslate, hs, exc_bind_err] at h
      exact Except.noConfusion h
    | ok c =>
      cases hm : foldTranslate step comb init rest with
      | error e =>
        simp only [foldTranslate, hs, hm, exc_bind_ok, exc_bind_err] at h
        exact Except.noConfusion h
      | ok m =>
        simp only [foldTranslate, hs, hm, exc_bind_ok, exc_pure_eq] at h
        injection h with h2
        subst h2
        exact hcomb c m (hq a (by simp) c hs)
          (ih (fun o ho c2 hc2 => hq o (List.mem_cons_of_mem _ ho) c2 hc2)
            m hm)

/-- C4 (amended): rpath entries the linker derives from library dependencies
are emitted only for the ELF object format — on every other format (in
particular PE/COFF, and also Mach-O) the rpath accumulator stays empty and
no `-Wl,-rpath,` flag is appended whenever the option list contains no
explicit `rpath_dir` option — and `post_install` produces nothing at all for
formats other than ELF and Mach-O.  (Explicit `rpath_dir` options, however,
are honored for every object format; see the counterexample.) -/
theorem cc_lib_rpath_only_elf :
    (∀ (ctx : CcLinkCtx) (options : List Opt) (output : Option OutputBin)
        (mode : Mode)
        (r : List Tok × List SPiece × List BPath × List BPath),
      ctx.objectFormat ≠ chars "elf" →
      (∀ p w, Opt.rpathDir p w ∉ options) →
      ccLinkFlagsGo ctx output mode options = .ok r →
      r.2.1 = [] ∧
      ccLinkerFlags ctx options output mode =
        .ok (r.1 ++ (uniques r.2.2.2).map (fun d =>
            [SPiece.s (chars "-L"), SPiece.p d]) ++
          (if r.2.2.1 ≠ [] then
            [SPiece.s (chars "-Wl,-rpath-link,") ::
              (r.2.2.1.map SPiece.p).intersperse (SPiece.s (chars ":"))]
          else []))) ∧
    (∀ (ctx : CcLinkCtx) (isLib : Bool) (fip : LinkedLib → BPath)
        (fipOut : BPath) (depName : RTFile → Str)
        (depInstall : RTFile → BPath) (options : List Opt)
        (output : OutputBin) (deps : List RTFile),
      ¬ (ctx.objectFormat = chars "elf" ∨
         ctx.objectFormat = chars "mach-o") →
      ccPostInstall ctx isLib fip fipOut depName depInstall options output
        deps = .ok none) := by
  constructor
  · intro ctx options output mode r hfmt hno hgo
    have hrp : r.2.1 = [] := by
      refine foldTranslate_invariant (ccLinkStep ctx output mode)
        (fun c m => (c.1 ++ m.1, c.2.1 ++ m.2.1, c.2.2.1 ++ m.2.2.1,
          c.2.2.2 ++ m.2.2.2))
        ([], [], [], []) (fun c => c.2.1 = []) (fun t => t.2.1 = []) rfl
        (fun c m hc hm => by
          show c.2.1 ++ m.2.1 = []
          rw [show c.2.1 = [] from hc, show m.2.1 = [] from hm]
          rfl)
        options
        (fun o ho c hc => ccLinkStep_rp_empty ctx output mode o c hfmt
          (fun p w heq => hno p w (heq ▸ ho)) hc)
        r hgo
    refine ⟨hrp, ?_⟩
    unfold ccLinkerFlags
    rw [show ccLinkFlagsGo ctx output mode options = .ok r from hgo]
    simp only [exc_bind_ok]
    rw [hrp]
    simp only [ne_eq, not_true_eq_false, List.append_nil]
    by_cases hc : r.2.2.1 = []
    · simp [hc]
    · simp [hc]
  · intro ctx isLib fip fipOut depName depInstall options output deps hfmt
    simp [ccPostInstall, hfmt]

end Bfg

namespace Bfg

/-- Counterexample for C4 as stated: on a PE/COFF target (which does not
support runtime search paths) an explicit `rpath_dir` option in the option
list still makes `CcLinker.flags` emit a `-Wl,-rpath,` flag, so rpath
emission is not restricted to ELF/Mach-O object formats. -/
theorem cc_rpath_dir_emitted_on_coff_counterexample :
    ccLinkerFlags
        { objectFormat := chars "coff", tp := windowsPlatform,
          rawLinker := none, lang := chars "c++" }
        [Opt.rpathDir { suffix := chars "/opt/lib", root := .absolute }
          { uninstalled := true, installed := false }]
        none .normal =
      .ok [[SPiece.s (chars "-Wl,-rpath,"),
        SPiece.p { suffix := chars "/opt/lib", root := .absolute }]] := by
  rfl

/-- Witness for C4 (amended): on the PE/COFF context, a `debug` plus
`rpath-link-dir` option list yields only the `-g` flag and the
`-Wl,-rpath-link,` flag (no `-Wl,-rpath,`), and `post_install` is `None`. -/
theorem cc_lib_rpath_only_elf_witness :
    ccLinkFlagsGo
        { objectFormat := chars "coff", tp := windowsPlatform,
          rawLinker := none, lang := chars "c++" }
        none .normal
        [Opt.debug,
         Opt.rpathLinkDir { suffix := chars "/opt/lib", root := .absolute }] =
      .ok ([[SPiece.s (chars "-g")]], [],
        [{ suffix := chars "/opt/lib", root := .absolute }], []) ∧
    ccLinkerFlags
        { objectFormat := chars "coff", tp := windowsPlatform,
          rawLinker := none, lang := chars "c++" }
        [Opt.debug,
         Opt.rpathLinkDir { suffix := chars "/opt/lib", root := .absolute }]
        none .normal =
      .ok ([[SPiece.s (chars "-g")]] ++ [] ++
        [SPiece.s (chars "-Wl,-rpath-link,") ::
          ([{ suffix := chars "/opt/lib",
              root := .absolute }].map SPiece.p).intersperse
            (SPiece.s (chars ":"))]) ∧
    ccPostInstall
        { objectFormat := chars "coff", tp := windowsPlatform,
          rawLinker := none, lang := chars "c++" }
        true (fun _ => { suffix := chars "/usr/lib", root := .absolute })
        { suffix := chars "/usr/lib/libx.dll", root := .absolute }
        (fun _ => [])
        (fun _ => { suffix := chars "/usr/lib", root := .absolute })
        [] { path := { suffix := chars "x.dll", root := .builddir } } [] =
      .ok none := by
  have h1 := (cc_lib_rpath_only_elf.1
    { objectFormat := chars "coff", tp := windowsPlatform,
      rawLinker := none, lang := chars "c++" }
    [Opt.debug,
     Opt.rpathLinkDir { suffix := chars "/opt/lib", root := .absolute }]
    none .normal
    ([[SPiece.s (chars "-g")]], [],
      [{ suffix := chars "/opt/lib", root := .absolute }], [])
    (by decide) (by intro p w h; simp at h) rfl)
  refine ⟨rfl, ?_, ?_⟩
  · have h2 := h1.2
    simpa using h2
  · exact cc_lib_rpath_only_elf.2
      { objectFormat := chars "coff", tp := windowsPlatform,
        rawLinker := none, lang := chars "c++" }
      true (fun _ => { suffix := chars "/usr/lib", root := .absolute })
      { suffix := chars "/usr/lib/libx.dll", root := .absolute }
      (fun _ => [])
      (fun _ => { suffix := chars "/usr/lib", root := .absolute })
      [] { path := { suffix := chars "x.dll", root := .builddir } } []
      (by decide)

end Bfg

namespace Bfg

/-- The query types of the `PkgConfig` tool wrapper (`pkg_config.py`
`_options`). -/
inductive PCQuery where
  | version
  | cflags
  | libDirs
  | ldflags
  | ldlibs
  | path
  | prefixQ
deriving DecidableEq

/-- The `argparse` `-L` extraction of `PkgConfigPackage.link_options`
(`parser.add_argument('-L', action='append')` with `parse_known_args`):
collect the value of every `-L` option, attached (`-Ldir`) or separate
(`-L dir`); unrecognized tokens are ignored; a trailing bare `-L` is an
argument error. -/
def parseDashL : List Str → Except PyErr (List Str)
  | [] => .ok []
  | a :: rest =>
    if a = chars "-L" then
      match rest with
      | [] => .error (.valueError (chars "argument -L: expected one argument"))
      | v :: rest2 => (parseDashL rest2).map (fun l => v :: l)
    else if (chars "-L").isPrefixOf a then
      (parseDashL rest).map (fun l => a.drop 2 :: l)
    else parseDashL rest

/-- `PkgConfigPackage.link_options` (pkg_config.py lines 85-110).  The
memoized `_call` (a pkg-config invocation followed by `shell.split`) is
abstracted as the `query` parameter giving the token list of each query for
given `static`/`msvc-syntax` flags; `_make_rpath` is the plain
`opts.rpath_dir` of `PkgConfigPackage` (applying at both install times, the
default `RpathWhen`). -/
def pcLinkOptions (query : PCQuery → Bool → Bool → List Str) (format : Str)
    (static : Bool) (linkerFlavor : Str) : Except PyErr (List Opt) :=
  let msvcSyn : Bool := decide (linkerFlavor = chars "msvc")
  let flags := (query .ldflags static msvcSyn).map Opt.stringy
  let libs := (query .ldlibs static msvcSyn).map Opt.libLiteral
  if format ≠ chars "elf" ∨ static = true then .ok (flags ++ libs)
  else do
    let libDirStrs ← parseDashL (query .libDirs static msvcSyn)
    let rpaths ← libDirStrs.mapM (fun i => mkPathD i .absolute false)
    .ok (flags ++ libs ++ rpaths.map (fun p =>
      Opt.rpathDir p { uninstalled := true, installed := true }))

/-- C5: `link_options` returns the queried link flags plus lib-literal
options, and appends one synthesized rpath option per `-L` directory parsed
from the library-dirs-only query exactly when the object format is ELF and
the package is not static; otherwise no rpath options are appended. -/
theorem pkg_config_link_options_rpath_synthesis :
    (∀ (query : PCQuery → Bool → Bool → List Str) (format : Str)
        (static : Bool) (flavor : Str),
      format ≠ chars "elf" ∨ static = true →
      pcLinkOptions query format static flavor =
        .ok ((query .ldflags static
            (decide (flavor = chars "msvc"))).map Opt.stringy ++
          (query .ldlibs static
            (decide (flavor = chars "msvc"))).map Opt.libLiteral)) ∧
    (∀ (query : PCQuery → Bool → Bool → List Str) (flavor : Str)
        (ds : List Str) (ps : List BPath),
      parseDashL (query .libDirs false (decide (flavor = chars "msvc"))) =
        .ok ds →
      ds.mapM (fun i => mkPathD i .absolute false) = .ok ps →
      pcLinkOptions query (chars "elf") false flavor =
        .ok ((query .ldflags false
            (decide (flavor = chars "msvc"))).map Opt.stringy ++
          (query .ldlibs false
            (decide (flavor = chars "msvc"))).map Opt.libLiteral ++
          ps.map (fun p =>
            Opt.rpathDir p { uninstalled := true, installed := true }))) := by
  constructor
  · intro query format static flavor h
    simp only [pcLinkOptions, if_pos h]
  · intro query flavor ds ps hparse hmap
    have hcond : ¬ (chars "elf" ≠ chars "elf" ∨ false = true) := by simp
    simp only [pcLinkOptions, if_neg hcond, hparse, hmap, exc_bind_ok]

/-- Witness for C5 at a concrete query table (ldflags `-pthread`, ldlibs
`-lfoo`, library dirs `-L/usr/lib`): an ELF non-static package gets the
synthesized rpath option, a static one and a non-ELF one do not. -/
theorem pkg_config_link_options_rpath_synthesis_witness :
    pcLinkOptions
        (fun q _ _ => match q with
          | .ldflags => [chars "-pthread"]
          | .ldlibs => [chars "-lfoo"]
          | .libDirs => [chars "-L/usr/lib"]
          | _ => [])
        (chars "elf") false (chars "cc") =
      .ok ([chars "-pthread"].map Opt.stringy ++
        [chars "-lfoo"].map Opt.libLiteral ++
        [{ suffix := chars "/usr/lib", root := RootT.absolute,
           destdir := false }].map (fun p =>
          Opt.rpathDir p { uninstalled := true, installed := true })) ∧
    pcLinkOptions
        (fun q _ _ => match q with
          | .ldflags => [chars "-pthread"]
          | .ldlibs => [chars "-lfoo"]
          | .libDirs => [chars "-L/usr/lib"]
          | _ => [])
        (chars "elf") true (chars "cc") =
      .ok ([chars "-pthread"].map Opt.stringy ++
        [chars "-lfoo"].map Opt.libLiteral) ∧
    pcLinkOptions
        (fun q _ _ => match q with
          | .ldflags => [chars "-pthread"]
          | .ldlibs => [chars "-lfoo"]
          | .libDirs => [chars "-L/usr/lib"]
          | _ => [])
        (chars "coff") false (chars "cc") =
      .ok ([chars "-pthread"].map Opt.stringy ++
        [chars "-lfoo"].map Opt.libLiteral) := by
  refine ⟨?_, ?_, ?_⟩
  · exact pkg_config_link_options_rpath_synthesis.2 _ (chars "cc")
      [chars "/usr/lib"]
      [{ suffix := chars "/usr/lib", root := RootT.absolute,
         destdir := false }] (by rfl) (by rfl)
  · exact pkg_config_link_options_rpath_synthesis.1 _ (chars "elf") true
      (chars "cc") (Or.inr rfl)
  · exact pkg_config_link_options_rpath_synthesis.1 _ (chars "coff") false
      (chars "cc") (Or.inl (by decide))

end Bfg

namespace Bfg

/-- Python `str.strip()` (whitespace at both ends). -/
def pstrip (s : Str) : Str :=
  ((s.dropWhile Char.isWhitespace).reverse.dropWhile Char.isWhitespace).reverse

/-- The line loop of `parse_build_info` (conan.py): skip blank lines, track
section headers (`[name]`, raising on malformed ones, and breaking at the
second header once inside the wanted section), and collect the lines of the
wanted section. -/
def parseBuildInfoGo (sectionName : Str) :
    Bool → List Str → Except PyErr (List Str)
  | _, [] => .ok []
  | inSection, line :: rest =>
    if line = [] then parseBuildInfoGo sectionName inSection rest
    else if line.head? = some '[' then
      if line.getLast? ≠ some ']' then
        .error (.valueError (chars "expected ']' at end of line"))
      else if line.length = 2 then
        .error (.valueError (chars "expected section name"))
      else if inSection then .ok []
      else parseBuildInfoGo sectionName
        (decide (sectionName = (line.drop 1).dropLast)) rest
    else if inSection then
      (parseBuildInfoGo sectionName inSection rest).map (fun r => line :: r)
    else parseBuildInfoGo sectionName inSection rest

/-- `parse_build_info(file, section)` with the file given as its (already
newline-stripped) lines. -/
def parseBuildInfo (sectionName : Str) (lines : List Str) :
    Except PyErr (List Str) :=
  parseBuildInfoGo sectionName false lines

/-- The `PackageKind` flag set (`shared`, `static`, `any = shared|static`). -/
structure PKind where
  shared : Bool
  static : Bool
deriving DecidableEq

/-- `PackageKind.shared`. -/
def pkindShared : PKind := { shared := true, static := false }

/-- `PackageKind.static`. -/
def pkindStatic : PKind := { shared := false, static := true }

/-- `PackageKind.any`. -/
def pkindAny : PKind := { shared := true, static := true }

/-- The data of a constructed `PkgConfigPackage` /
`ConanPkgConfigPackage`. -/
structure PCPkg where
  name : Str
  format : Str
  version : Str
  static : Bool
  conan : Bool
deriving DecidableEq

/-- `pkg_config.resolve` (pkg_config.py lines 129-138) together with
`_check_version` (lines 41-49) and `_is_conan` (lines 52-61).  The pkg-config
subprocess invocations are abstracted as the `run` parameter (per query
type); `check_version` against the requested specifier (in `versioning.py`,
not among the analyzed sources) is abstracted as `vercheck`; `buildInfo` is
the content of `conanbuildinfo.txt` in the build directory, `none` when the
file is absent (in which case `open` raises `FileNotFoundError`, an
`OSError`).  The final `run .path` is the `package.path()` call in the
success log message. -/
def pcResolve (run : PCQuery → Except PyErr Str)
    (vercheck : Str → Except PyErr Unit)
    (buildInfo : Option (List Str)) (name : Str) (format : Str)
    (kind : PKind) : Except PyErr PCPkg := do
  let vraw ← (match run .version with
    | .error (.calledProcessError _) =>
      .error (.pkgResolutionError
        (chars "unable to find package " ++ quoted name))
    | r => r)
  let version := pstrip vraw
  vercheck version
  let pfxRaw ← run .prefixQ
  let isConan ← (match buildInfo with
    | none => .error (.osError (chars "No such file or directory: " ++
        quoted (chars "conanbuildinfo.txt")))
    | some lines => do
      let entries ← parseBuildInfo (chars "rootpath_" ++ name) lines
      match entries with
      | [] => .error (.indexError (chars "list index out of range"))
      | e :: _ => .ok (decide (pstrip pfxRaw = e)))
  let pkg : PCPkg :=
    { name := name, format := format, version := version,
      static := decide (kind = pkindStatic), conan := isConan }
  let _ ← run .path
  .ok pkg

/-- C9 (code bug): when `conanbuildinfo.txt` is absent, `_is_conan`'s bare
`open` raises `FileNotFoundError` (an `OSError`) which propagates out of
`pkg_config.resolve` — resolve does *not* treat the package as "not a Conan
package" and succeed, contrary to the spec (§9) and to the workflows the
repository's own integration tests exercise.  With the file present the
same queries resolve to an ordinary non-Conan `PkgConfigPackage`. -/
theorem pkg_config_resolve_missing_conan_file_raises :
    pcResolve
        (fun q => match q with
          | .version => .ok (chars "1.0")
          | .prefixQ => .ok (chars "/usr")
          | .path => .ok (chars "/usr/lib/pkgconfig")
          | _ => .ok [])
        (fun _ => .ok ()) none (chars "foo") (chars "elf") pkindAny =
      .error (.osError (chars "No such file or directory: " ++
        quoted (chars "conanbuildinfo.txt"))) ∧
    pcResolve
        (fun q => match q with
          | .version => .ok (chars "1.0")
          | .prefixQ => .ok (chars "/usr")
          | .path => .ok (chars "/usr/lib/pkgconfig")
          | _ => .ok [])
        (fun _ => .ok ())
        (some [chars "[rootpath_foo]", chars "/conan/data/foo"])
        (chars "foo") (chars "elf") pkindAny =
      .ok { name := chars "foo", format := chars "elf",
            version := chars "1.0", static := false, conan := false } := by
  constructor
  · rfl
  · rfl

end Bfg

namespace Bfg

/-- A `libraries` entry as reported in a dependency-resolution usage record:
a plain name string or a typed record (`{'type': 'framework', ...}` or an
unknown type). -/
inductive MopackLib where
  | named (s : Str)
  | frameworkEntry (name : Str)
  | otherEntry (t : Str)

/-- A library entry after `mopack.to_frameworks` conversion. -/
inductive LibEntry where
  | strE (s : Str)
  | frameworkE (name : Str)

/-- `mopack.to_frameworks` (mopack.py lines 68-76): convert framework dicts,
raise on unknown dict types, pass names through. -/
def toFrameworks : List MopackLib → Except PyErr (List LibEntry)
  | [] => .ok []
  | .named s :: rest => (toFrameworks rest).map (fun r => .strE s :: r)
  | .frameworkEntry n :: rest =>
    (toFrameworks rest).map (fun r => .frameworkE n :: r)
  | .otherEntry t :: rest =>
    .error (.valueError (chars "unknown type " ++ quoted t))

/-- The fields of a `usage` record the path-search resolver consumes. -/
structure UsageRec where
  headers : List Str
  libraries : List MopackLib
  includePath : List Str
  libraryPath : List Str

/-- The fallback usage `try_usage` builds when the mopack query raises
(mopack.py lines 58-65): type `system` with no headers and the package name
as the only library. -/
def defaultUsage (name : Str) : UsageRec :=
  { headers := [], libraries := [.named name], includePath := [],
    libraryPath := [] }

/-- `mopack.try_usage`: the mopack `usage --json` outcome, with `OSError`
and `CalledProcessError` replaced by the default system usage. -/
def tryUsage (outcome : Except PyErr UsageRec) (name : Str) :
    Except PyErr UsageRec :=
  match outcome with
  | .ok u => .ok u
  | .error (.osError _) => .ok (defaultUsage name)
  | .error (.calledProcessError _) => .ok (defaultUsage name)
  | .error e => .error e

/-- `BasePath.abspath`: resolve against the working directory and construct
an absolute path (drive-less POSIX form). -/
def abspathM (cwd : Str) (s : Str) : Except PyErr BPath :=
  mkPathD (joinNorm (pathNormalize cwd) (pathNormalize s)) .absolute false

/-- `BasePath.string()` with no variable map: only paths with an absolute
root realize (any other root indexes `None` and raises). -/
def BPath.stringAbs (p : BPath) : Except PyErr Str :=
  if p.root = .absolute then .ok p.suffix
  else .error (.typeError (chars "cannot realize path without a variable map"))

/-- A library file found by `CcPackageResolver.library`, tagged with the
file-type class the source instantiates for it. -/
structure FoundLib where
  path : BPath
  tag : Str
deriving DecidableEq

/-- The candidate (filename, file-type) pairs `CcPackageResolver.library`
tries, in order (cc.py lines 791-807). -/
def ccLibCandidates (tp : TargetPlatform) (name : Str) (kind : PKind) :
    List (Str × Str) :=
  (if kind.shared then
    (if tp.hasImportLibrary then
      [(chars "lib" ++ name ++ tp.sharedLibraryExt ++ chars ".a",
        chars "LinkLibrary")]
    else
      [(chars "lib" ++ name ++ tp.sharedLibraryExt, chars "SharedLibrary")])
  else []) ++
  (if kind.static then
    [(chars "lib" ++ name ++ chars ".a", chars "StaticLibrary")]
  else []) ++
  (if tp.family = chars "windows" then
    [(name ++ chars ".lib", chars "Library")]
  else [])

/-- The inner candidate loop of `CcPackageResolver.library` for one search
directory. -/
def ccLibSearchInDir (fs : BPath → Bool) :
    List (Str × Str) → BPath → Except PyErr (Option FoundLib)
  | [], _ => .ok none
  | (ln, tag) :: rest, base => do
    let fullpath ← base.append ln
    if fs fullpath = true then .ok (some { path := fullpath, tag := tag })
    else ccLibSearchInDir fs rest base

/-- The directory loop of `CcPackageResolver.library`: non-absolute search
directories raise; the first existing candidate wins; exhaustion raises the
"unable to find library" resolution error naming the library. -/
def ccLibSearchDirs (fs : BPath → Bool) (cands : List (Str × Str))
    (name : Str) : List BPath → Except PyErr FoundLib
  | [] => .error (.pkgResolutionError
      (chars "unable to find library " ++ quoted name))
  | base :: rest =>
    if base.root ≠ .absolute then
      .error (.valueError (chars "expected an absolute path"))
    else do
      let r ← ccLibSearchInDir fs cands base
      match r with
      | some fl => .ok fl
      | none => ccLibSearchDirs fs cands name rest

/-- `CcPackageResolver.library` (cc.py lines 787-819); an empty
(falsy) `search_dirs` argument falls back to the resolver's `lib_dirs`. -/
def ccLibrary (tp : TargetPlatform) (fs : BPath → Bool)
    (defaultLibDirs : List BPath) (name : Str) (kind : PKind)
    (searchDirs : List BPath) : Except PyErr FoundLib :=
  ccLibSearchDirs fs (ccLibCandidates tp name kind) name
    (if searchDirs = [] then defaultLibDirs else searchDirs)

/-- The directory loop of `CcPackageResolver.header` (cc.py lines 775-785):
the first directory containing the header is returned as a system header
directory; exhaustion raises the "unable to find header" resolution error
naming the header. -/
def ccHeaderSearchDirs (fs : BPath → Bool) (name : Str) :
    List BPath → Except PyErr HeaderDir
  | [] => .error (.pkgResolutionError
      (chars "unable to find header " ++ quoted name))
  | base :: rest =>
    if base.root ≠ .absolute then
      .error (.valueError (chars "expected an absolute path"))
    else do
      let fullpath ← base.append name
      if fs fullpath = true then .ok { path := base, system := true }
      else ccHeaderSearchDirs fs name rest

/-- `CcPackageResolver.header`; an empty `search_dirs` argument falls back
to the resolver's `include_dirs`. -/
def ccHeader (fs : BPath → Bool) (defaultIncludeDirs : List BPath)
    (name : Str) (searchDirs : List BPath) : Except PyErr HeaderDir :=
  ccHeaderSearchDirs fs name
    (if searchDirs = [] then defaultIncludeDirs else searchDirs)

/-- Convert a found library to the `LinkedLib` its file-type class
represents.  Modelled from the spec's library artifact family (§3;
`file_types.py` is not among the analyzed sources): a shared library is its
own runtime file; import libraries and unclassified `.lib` files are plain
`Library` values; static archives carry no runtime file. -/
def FoundLib.toLinkedLib (fl : FoundLib) : LinkedLib :=
  if fl.tag = chars "SharedLibrary" then
    .sharedLib fl.path (some (.node fl.path [])) false
  else if fl.tag = chars "StaticLibrary" then .staticLib fl.path
  else .genericLib fl.path none

/-- The data of a `CommonPackage` (modelled from the spec's Package record,
§3; `packages.py` is not among the analyzed sources): the constructor
arguments `_resolve_path` passes. -/
structure CommonPkg where
  name : Str
  submodules : Option (List Str)
  format : Str
  version : Option Str
  compileOptions : List Opt
  linkOptions : List Opt

/-- The libraries loop of `CcPackageResolver._resolve_path` (cc.py lines
840-851): frameworks become `lib` options, `pthread` becomes a
compile-and-link `pthread` option, anything else is searched with
`library()`; the first found library's parent directory string is remembered
for the log message. -/
def ccResolveLibsGo (tp : TargetPlatform) (fs : BPath → Bool)
    (defaultLibDirs : List BPath) (libraryPath : List BPath) (kind : PKind) :
    Option Str → List LibEntry →
    Except PyErr (List Opt × List Opt × Option Str)
  | found, [] => .ok ([], [], found)
  | found, .frameworkE n :: rest => do
    let r ← ccResolveLibsGo tp fs defaultLibDirs libraryPath kind found rest
    .ok (r.1, Opt.lib (.framework n) :: r.2.1, r.2.2)
  | found, .strE s :: rest =>
    if s = chars "pthread" then do
      let r ← ccResolveLibsGo tp fs defaultLibDirs libraryPath kind found rest
      .ok (Opt.pthread :: r.1, Opt.pthread :: r.2.1, r.2.2)
    else do
      let lib ← ccLibrary tp fs defaultLibDirs s kind libraryPath
      let found2 ← (match found with
        | none => do
          let pp ← lib.path.parent
          let ps ← pp.stringAbs
          .ok (some ps)
        | some f => .ok (some f))
      let r ← ccResolveLibsGo tp fs defaultLibDirs libraryPath kind found2 rest
      .ok (r.1, Opt.lib lib.toLinkedLib :: r.2.1, r.2.2)

/-- `CcPackageResolver._resolve_path` (cc.py lines 821-866). -/
def ccResolvePath (tp : TargetPlatform) (format lang : Str)
    (fs : BPath → Bool) (includeDirs libDirs : List BPath) (cwd : Str)
    (getVersion : Option (List HeaderDir → Option Str → Option Str))
    (version : Option Str) (name : Str) (submodules : Option (List Str))
    (kind : PKind) (usage : UsageRec) : Except PyErr CommonPkg := do
  let libraries ← toFrameworks usage.libraries
  let includePath ← usage.includePath.mapM (abspathM cwd)
  let libraryPath ← usage.libraryPath.mapM (abspathM cwd)
  let headerOpts ←
    (if usage.headers ≠ [] then
      usage.headers.mapM (fun i =>
        (ccHeader fs includeDirs i includePath).map Opt.includeDir)
    else if includePath ≠ [] then
      .ok (includePath.map (fun i =>
        Opt.includeDir { path := i, system := true }))
    else .ok [])
  let r ← ccResolveLibsGo tp fs libDirs libraryPath kind none libraries
  let compileOptions := headerOpts ++ r.1
  let foundVer := match getVersion with
    | some f => f (compileOptions.filterMap (fun o => match o with
        | Opt.includeDir d => some d
        | _ => none)) version
    | none => none
  .ok { name := name, submodules := submodules, format := format,
        version := foundVer, compileOptions := compileOptions,
        linkOptions := r.2.1 }

/-- A resolved package: either a pkg-config package or a path-searched
`CommonPackage`. -/
inductive Pkg where
  | pkgconfig (p : PCPkg)
  | common (p : CommonPkg)

/-- The exception classes the `system` branch's
`except (OSError, PackageResolutionError)` handler catches.
`PackageVersionError` is modelled as a distinct, uncaught kind following the
spec (§7: a version-constraint failure is "always surfaced, never silently
downgraded"; `exceptions.py` is not among the analyzed sources). -/
def systemCaught : PyErr → Bool
  | .osError _ => true
  | .pkgResolutionError _ => true
  | _ => false

/-- The `usage['type'] == 'system'` branch of `CcPackageResolver.resolve`
(cc.py lines 883-891): try `pkg_config.resolve` (its outcome abstracted as
`pkgOutcome`); on `OSError` or `PackageResolutionError` fall back to
`_resolve_path` with the reported usage. -/
def ccResolveSystem (tp : TargetPlatform) (format lang : Str)
    (fs : BPath → Bool) (includeDirs libDirs : List BPath) (cwd : Str)
    (getVersion : Option (List HeaderDir → Option Str → Option Str))
    (version : Option Str) (pkgOutcome : Except PyErr PCPkg) (name : Str)
    (submodules : Option (List Str)) (kind : PKind) (usage : UsageRec) :
    Except PyErr Pkg :=
  match pkgOutcome with
  | .ok p => .ok (.pkgconfig p)
  | .error e =>
    if systemCaught e = true then
      (ccResolvePath tp format lang fs includeDirs libDirs cwd getVersion
        version name submodules kind usage).map .common
    else .error e

/-- Following the spec's words for the `system` fallback (§4.4: "fall back
to `path`-style search using the package name as both header and library
name"): identical to `ccResolveSystem` except that the fallback also
searches the package name as a header.  Kept only to compare against the
source-derived `ccResolveSystem`. -/
def ccResolveSystemSpec (tp : TargetPlatform) (format lang : Str)
    (fs : BPath → Bool) (includeDirs libDirs : List BPath) (cwd : Str)
    (getVersion : Option (List HeaderDir → Option Str → Option Str))
    (version : Option Str) (pkgOutcome : Except PyErr PCPkg) (name : Str)
    (submodules : Option (List Str)) (kind : PKind) : Except PyErr Pkg :=
  match pkgOutcome with
  | .ok p => .ok (.pkgconfig p)
  | .error e =>
    if systemCaught e = true then
      (ccResolvePath tp format lang fs includeDirs libDirs cwd getVersion
        version name submodules kind
        { headers := [name], libraries := [.named name], includePath := [],
          libraryPath := [] }).map .common
    else .error e

end Bfg

namespace Bfg

/-- The one library file of the counterexample world. -/
def libfooPath : BPath :=
  { suffix := chars "/usr/lib/libfoo.so", root := .absolute, destdir := false }

/-- The include search path of the counterexample world. -/
def cexIncludeDirs : List BPath :=
  [{ suffix := chars "/usr/include", root := .absolute, destdir := false }]

/-- The library search path of the counterexample world. -/
def cexLibDirs : List BPath :=
  [{ suffix := chars "/usr/lib", root := .absolute, destdir := false }]

/-- The filesystem of the counterexample world: only `/usr/lib/libfoo.so`
exists. -/
def cexFs (p : BPath) : Bool := decide (p = libfooPath)

/-- C3 (counterexample): in a Linux world whose filesystem contains
`/usr/lib/libfoo.so` but no header named `foo` anywhere, with pkg-config
unavailable, the source's `system` fallback resolves `foo` successfully —
the default usage searches only the library name — whereas a resolver
following the spec's words (package name used as header name too) fails
with "unable to find header".  The claim that the fallback searches the
package name as a header does not match the source. -/
theorem cc_system_fallback_header_search_counterexample :
    ccResolveSystem linuxPlatform (chars "elf") (chars "c++") cexFs
        cexIncludeDirs cexLibDirs (chars "/") none none
        (.error (.osError (chars "pkg-config executable not found")))
        (chars "foo") none pkindAny (defaultUsage (chars "foo")) =
      .ok (.common { name := chars "foo", submodules := none,
                     format := chars "elf", version := none,
                     compileOptions := [],
                     linkOptions := [Opt.lib (.sharedLib libfooPath
                       (some (.node libfooPath [])) false)] }) ∧
    ccResolveSystemSpec linuxPlatform (chars "elf") (chars "c++") cexFs
        cexIncludeDirs cexLibDirs (chars "/") none none
        (.error (.osError (chars "pkg-config executable not found")))
        (chars "foo") none pkindAny =
      .error (.pkgResolutionError
        (chars "unable to find header " ++ quoted (chars "foo"))) := by
  constructor
  · rfl
  · rfl

/-- C3 (amended): the `system` resolver returns the pkg-config package
whenever pkg-config succeeds; on a caught `OSError` or
`PackageResolutionError` it falls back to `_resolve_path` with the reported
usage; the default usage built when the mopack query raises holds no
headers and the package name as the only library (so the fallback searches
the name only as a library, not as a header); and with the default usage a
non-pthread name whose library search fails makes the whole resolution fail
with the "unable to find library" error naming the library. -/
theorem cc_system_fallback_behavior :
    (∀ (tp : TargetPlatform) (format lang : Str) (fs : BPath → Bool)
        (includeDirs libDirs : List BPath) (cwd : Str)
        (gv : Option (List HeaderDir → Option Str → Option Str))
        (version : Option Str) (p : PCPkg) (name : Str)
        (submodules : Option (List Str)) (kind : PKind) (usage : UsageRec),
      ccResolveSystem tp format lang fs includeDirs libDirs cwd gv version
        (.ok p) name submodules kind usage = .ok (.pkgconfig p)) ∧
    (∀ (tp : TargetPlatform) (format lang : Str) (fs : BPath → Bool)
        (includeDirs libDirs : List BPath) (cwd : Str)
        (gv : Option (List HeaderDir → Option Str → Option Str))
        (version : Option Str) (e : PyErr) (name : Str)
        (submodules : Option (List Str)) (kind : PKind) (usage : UsageRec),
      systemCaught e = true →
      ccResolveSystem tp format lang fs includeDirs libDirs cwd gv version
        (.error e) name submodules kind usage =
        (ccResolvePath tp format lang fs includeDirs libDirs cwd gv version
          name submodules kind usage).map Pkg.common) ∧
    (∀ (m name : Str),
      tryUsage (.error (.osError m)) name = .ok (defaultUsage name) ∧
      tryUsage (.error (.calledProcessError m)) name =
        .ok (defaultUsage name) ∧
      defaultUsage name = { headers := [], libraries := [.named name],
                            includePath := [], libraryPath := [] }) ∧
    (∀ (tp : TargetPlatform) (format lang : Str) (fs : BPath → Bool)
        (includeDirs libDirs : List BPath) (cwd : Str) (e : PyErr)
        (name : Str) (submodules : Option (List Str)) (kind : PKind),
      systemCaught e = true → ¬ name = chars "pthread" →
      ccLibrary tp fs libDirs name kind [] = .error (.pkgResolutionError
        (chars "unable to find library " ++ quoted name)) →
      ccResolveSystem tp format lang fs includeDirs libDirs cwd none none
        (.error e) name submodules kind (defaultUsage name) =
        .error (.pkgResolutionError
          (chars "unable to find library " ++ quoted name))) := by
  refine ⟨?_, ?_, ?_, ?_⟩
  · intro tp format lang fs includeDirs libDirs cwd gv version p name
      submodules kind usage
    rfl
  · intro tp format lang fs includeDirs libDirs cwd gv version e name
      submodules kind usage hcaught
    simp only [ccResolveSystem]
    rw [if_pos hcaught]
  · intro m name
    exact ⟨rfl, rfl, rfl⟩
  · intro tp format lang fs includeDirs libDirs cwd e name submodules kind
      hcaught hname hsearch
    have h1 : ccResolveLibsGo tp fs libDirs [] kind none
        [LibEntry.strE name] = .error (.pkgResolutionError
          (chars "unable to find library " ++ quoted name)) := by
      simp only [ccResolveLibsGo]
      rw [if_neg hname, hsearch]
      rfl
    have h2 : ccResolvePath tp format lang fs includeDirs libDirs cwd none
        none name submodules kind (defaultUsage name) =
        (ccResolveLibsGo tp fs libDirs [] kind none [LibEntry.strE name] >>=
          fun r => Except.ok
            { name := name, submodules := submodules, format := format,
              version := none, compileOptions := [] ++ r.1,
              linkOptions := r.2.1 }) := rfl
    simp only [ccResolveSystem]
    rw [if_pos hcaught, h2, h1]
    rfl

/-- Concrete instance of the fallback failure path: an empty filesystem,
library `bar`, pkg-config absent. -/
theorem cc_system_fallback_behavior_witness :
    systemCaught (.osError (chars "no pkg-config")) = true ∧
    ¬ chars "bar" = chars "pthread" ∧
    ccLibrary linuxPlatform (fun _ => false) cexLibDirs (chars "bar")
      pkindAny [] = .error (.pkgResolutionError
        (chars "unable to find library " ++ quoted (chars "bar"))) ∧
    ccResolveSystem linuxPlatform (chars "elf") (chars "c")
      (fun _ => false) cexIncludeDirs cexLibDirs (chars "/") none none
      (.error (.osError (chars "no pkg-config"))) (chars "bar") none
      pkindAny (defaultUsage (chars "bar")) =
      .error (.pkgResolutionError
        (chars "unable to find library " ++ quoted (chars "bar"))) :=
  ⟨rfl, by decide, rfl,
    cc_system_fallback_behavior.2.2.2 linuxPlatform (chars "elf")
      (chars "c") (fun _ => false) cexIncludeDirs cexLibDirs (chars "/")
      (.osError (chars "no pkg-config")) (chars "bar") none pkindAny
      rfl (by decide) rfl⟩

end Bfg
